import Mathlib

/-!
Verification of the starnet-rs arena server core.

The Rust sources are shallowly embedded:
 * machine floats (`f32`/`f64`) become exact rationals `ℚ`; the numeric
   claims only involve values (0.25, 0.5, 600, 1100, …) that `f32`
   represents exactly, so the rational semantics agrees with the float one;
 * `Instant`/`SystemTime` timestamps become natural numbers counting
   milliseconds (respectively seconds for the connection timer), and
   `Instant::now()` is passed in as an explicit `now` parameter;
 * rapier's body/collider arenas become association lists from handles
   (naturals) to payloads; arena insertion allocates an unused handle;
 * rapier stores a 2-D rotation as a unit complex number, so a body's
   rotation is kept as the pair `rot = (cos θ, sin θ)`; the source's
   `rb.rotation().angle()` followed by `cos`/`sin` recovers exactly these
   two components;
 * code that can panic (`Vec::remove` past the end, indexing an arena with
   a dead handle) returns `Option`, with `none` for the panic;
 * randomness (spawn positions) and the one trigonometric quantity that
   never influences a claim (the projectile's launch direction
   `(cos α, sin α)` with `α = heading + 2π·gun_traverse + π`) are passed
   in as parameters and universally quantified in the theorems.
-/

namespace Starnet

/-! ## Generic list helpers used by the embedding -/

/-- Replace the element at position `i` by `f` of it (in-place mutation of a
`Vec` element through an index). Out-of-range indices leave the list alone. -/
def modifyAt (l : List α) (i : ℕ) (f : α → α) : List α :=
  match l, i with
  | [], _ => []
  | x :: xs, 0 => f x :: xs
  | x :: xs, j + 1 => x :: modifyAt xs j f

/-- First element satisfying `p` together with its index: the
`iter().enumerate()`-plus-`position` pattern of the source. -/
def findIdxAndElem? (p : α → Bool) : List α → Option (ℕ × α)
  | [] => none
  | x :: xs =>
    if p x then some (0, x)
    else (findIdxAndElem? p xs).map (fun ia => (ia.1 + 1, ia.2))

/-- Indices of the elements satisfying `p`, in increasing order: the
`for (index, x) in iter().enumerate() { if p(x) { push(index) } }` loop
used by the bullet-reaping passes. -/
def indicesWhere (p : α → Bool) : List α → List ℕ
  | [] => []
  | x :: xs =>
    if p x then 0 :: (indicesWhere p xs).map (· + 1)
    else (indicesWhere p xs).map (· + 1)

/-- Descending sort: `sort_unstable_by(|a, b| b.cmp(a))` from the source. -/
def sortDesc (l : List ℕ) : List ℕ :=
  l.insertionSort (fun a b => b ≤ a)

/-! ## Data model -/

/-- The slice of a rapier rigid body that the game logic reads or writes:
translation, rotation (as the unit complex `(cos θ, sin θ)`), linear and
angular velocity. -/
structure Body where
  pos : ℚ × ℚ
  rot : ℚ × ℚ
  linvel : ℚ × ℚ
  angvel : ℚ
deriving DecidableEq

/-- A rapier collision event; the game logic only reacts to `started`. -/
inductive CollisionEvent where
  | started (collider1 collider2 : ℕ)
  | stopped (collider1 collider2 : ℕ)
deriving DecidableEq

/-- The slice of `PhysicsEngine` the game logic interacts with: the body
arena, the collider arena (a collider knows its optional parent body), and
the per-tick collision-event buffer. Pipeline/solver internals are opaque
to every claim and are not modelled. -/
structure PhysicsEngine where
  bodies : List (ℕ × Body)
  colliders : List (ℕ × Option ℕ)
  collisionEvents : List CollisionEvent
deriving DecidableEq

/-- An entity (`entities/entity.rs`). Timestamps are milliseconds, colours
are RGB triples, every float field is an exact rational. -/
structure Entity where
  id : ℕ
  name : String
  score : ℤ
  handle : ℕ
  isAi : Bool
  lastShot : ℕ
  x : ℚ
  y : ℚ
  selfOrientation : ℚ
  gunOrientation : ℚ
  targetX : ℚ
  targetY : ℚ
  color : ℕ × ℕ × ℕ
  motorLeft : ℚ
  motorRight : ℚ
  gunTrigger : ℚ
  gunTraverse : ℚ
  health : ℤ
deriving DecidableEq

/-- A bullet (`bullet/bullet.rs`): its own body handle, the shooter's body
handle (kept only for identity comparison) and the creation timestamp. -/
structure Bullet where
  handle : ℕ
  shooter : ℕ
  createdAt : ℕ
deriving DecidableEq

/-- An obstacle: a logical position plus a collider handle. -/
structure Obstacle where
  position : ℚ × ℚ
  colliderHandle : ℕ
deriving DecidableEq

/-- The game state (`game_logic/mod.rs`): the physics engine plus the
entity, bullet and obstacle collections. -/
structure GameLogic where
  physicsEngine : PhysicsEngine
  entities : List Entity
  bullets : List Bullet
  obstacles : List Obstacle
deriving DecidableEq

/-! ## Physics-engine primitives -/

/-- Strict upper bound of a list of handles. -/
def keysMax (l : List ℕ) : ℕ := l.foldr max 0

/-- A handle not yet used by the body arena (rapier's `insert` always
returns a fresh handle). -/
def PhysicsEngine.freshBodyHandle (pe : PhysicsEngine) : ℕ :=
  keysMax (pe.bodies.map Prod.fst) + 1

/-- A handle not yet used by the collider arena. -/
def PhysicsEngine.freshColliderHandle (pe : PhysicsEngine) : ℕ :=
  keysMax (pe.colliders.map Prod.fst) + 1

/-- Insert a body under the given handle. -/
def PhysicsEngine.insertBody (pe : PhysicsEngine) (h : ℕ) (b : Body) :
    PhysicsEngine :=
  { pe with bodies := (h, b) :: pe.bodies }

/-- `ColliderSet::insert_with_parent`: a fresh collider attached to the
body `parent`. -/
def PhysicsEngine.insertColliderWithParent (pe : PhysicsEngine) (parent : ℕ) :
    PhysicsEngine :=
  { pe with colliders := (pe.freshColliderHandle, some parent) :: pe.colliders }

/-- Overwrite the body stored under `h` (mutation through `get_mut`). -/
def updateKey (l : List (ℕ × Body)) (h : ℕ) (b : Body) : List (ℕ × Body) :=
  match l with
  | [] => []
  | (k, v) :: tl => if k = h then (k, b) :: tl else (k, v) :: updateKey tl h b

/-- Overwrite the body stored under `h` in the arena. -/
def PhysicsEngine.updateBody (pe : PhysicsEngine) (h : ℕ) (b : Body) :
    PhysicsEngine :=
  { pe with bodies := updateKey pe.bodies h b }

/-- `RigidBodySet::remove` with `remove_attached_colliders = true`: drop the
body and every collider parented to it. Removing an absent handle is a
no-op (rapier returns `None`). -/
def PhysicsEngine.removeBody (pe : PhysicsEngine) (h : ℕ) : PhysicsEngine :=
  { pe with
    bodies := pe.bodies.filter (fun kv => kv.1 != h)
    colliders := pe.colliders.filter (fun kv => kv.2 != some h) }

/-! ## GameLogic: entity management -/

/-- `GameLogic::next_entity_id`: `entities.iter().map(|e| e.id).max().unwrap_or(0) + 1`. -/
def GameLogic.nextEntityId (gl : GameLogic) : ℕ :=
  ((gl.entities.map Entity.id).max?.getD 0) + 1

/-- `Entity::new`. The random spawn position `(rx, ry)` and initial velocity
`(vx, vy)` are parameters (the source draws them from `rand`), `now` is the
creation instant. The body starts with rotation 0, i.e. unit complex `(1, 0)`. -/
def entityNew (id : ℕ) (name : String) (pe : PhysicsEngine) (isAi : Bool)
    (now : ℕ) (rx ry vx vy : ℚ) : PhysicsEngine × Entity :=
  let handle := pe.freshBodyHandle
  let pe1 := pe.insertBody handle
    { pos := (rx, ry), rot := (1, 0), linvel := (vx, vy), angvel := 0 }
  let pe2 := pe1.insertColliderWithParent handle
  (pe2,
    { id := id, name := name, score := 0, handle := handle, isAi := isAi,
      lastShot := now, x := rx, y := ry, selfOrientation := 0,
      gunOrientation := 0, targetX := rx, targetY := ry,
      color := (220, 220, 220), motorLeft := mkRat 1 2,
      motorRight := mkRat 1 2, gunTrigger := 0, gunTraverse := mkRat 1 2,
      health := 1 })

/-- `GameLogic::add_entity`: allocate the next id, create the entity, push
it, return the id. -/
def GameLogic.addEntity (gl : GameLogic) (name : String) (now : ℕ)
    (rx ry vx vy : ℚ) : GameLogic × ℕ :=
  let entityId := gl.nextEntityId
  let (pe, entity) := entityNew entityId name gl.physicsEngine false now rx ry vx vy
  ({ gl with physicsEngine := pe, entities := gl.entities ++ [entity] }, entityId)

/-- `GameLogic::add_ai`: same as `add_entity` with the AI flag set. -/
def GameLogic.addAi (gl : GameLogic) (name : String) (now : ℕ)
    (rx ry vx vy : ℚ) : GameLogic × ℕ :=
  let entityId := gl.nextEntityId
  let (pe, entity) := entityNew entityId name gl.physicsEngine true now rx ry vx vy
  ({ gl with physicsEngine := pe, entities := gl.entities ++ [entity] }, entityId)

/-- `GameLogic::remove_entity_by_id`: find the first entity with this id,
remove it from the list and free its body (attached colliders included);
if no entity has the id, do nothing. -/
def GameLogic.removeEntityById (gl : GameLogic) (entityId : ℕ) : GameLogic :=
  match gl.entities.find? (fun e => e.id == entityId) with
  | some entity =>
    { gl with
      entities := gl.entities.eraseP (fun e => e.id == entityId)
      physicsEngine := gl.physicsEngine.removeBody entity.handle }
  | none => gl

/-- `GameLogic::get_entity_mut` followed by a field mutation: apply `f` to
the first entity with the given id; `none` when no entity has the id. -/
def GameLogic.updateEntityFirst (gl : GameLogic) (entityId : ℕ)
    (f : Entity → Entity) : Option GameLogic :=
  match gl.entities.findIdx? (fun e => e.id == entityId) with
  | some i => some { gl with entities := modifyAt gl.entities i f }
  | none => none

/-! ## GameLogic: actuation -/

/-- Modelled from the spec: `AppDefines::BOT_RATE_OF_FIRE`, the fixed
rate-of-fire cooldown in milliseconds. `app_defines.rs` is not under
`src/`; the spec only calls it a fixed duration, and no claim depends on
its value. -/
def BOT_RATE_OF_FIRE : ℕ := 1000

/-- `Bullet::new`. The shooter's body is passed in directly (the source
looks it up with `physics_engine.bodies[shooter_handle]`, which its caller
has just verified to succeed). `dir` stands for the launch direction
`(cos α, sin α)` with `α = heading + 2π·gun_traverse + π`; it is the one
trigonometric value of the source, is irrelevant to every claim, and is
universally quantified in the theorems. `radius` only shapes the collider
and has no further observable effect. -/
def bulletNew (shooterHandle : ℕ) (shooterBody : Body) (pe : PhysicsEngine)
    (speed _radius : ℚ) (dir : ℚ × ℚ) (now : ℕ) : PhysicsEngine × Bullet :=
  let startPos := (shooterBody.pos.1 + dir.1 * 20, shooterBody.pos.2 + dir.2 * 20)
  let body : Body :=
    { pos := startPos, rot := (1, 0),
      linvel := (dir.1 * speed, dir.2 * speed), angvel := 0 }
  let handle := pe.freshBodyHandle
  let pe1 := pe.insertBody handle body
  let pe2 := pe1.insertColliderWithParent handle
  (pe2, { handle := handle, shooter := shooterHandle, createdAt := now })

/-- `GameLogic::shoot_ball`: return unchanged while the cooldown since
`last_shot` has not elapsed, otherwise push a new bullet (speed 500,
radius 5). -/
def shootBall (shooter : Entity) (shooterBody : Body) (pe : PhysicsEngine)
    (bullets : List Bullet) (dir : ℚ × ℚ) (now : ℕ) :
    PhysicsEngine × List Bullet :=
  if now - shooter.lastShot < BOT_RATE_OF_FIRE then (pe, bullets)
  else
    let (pe1, bullet) := bulletNew shooter.handle shooterBody pe 500 5 dir now
    (pe1, bullets ++ [bullet])

/-- The body of the `apply_actuators` loop for one entity: skip entities
whose body is gone; otherwise write the differential-drive velocity
command, fire when the trigger is pulled (updating `last_shot` exactly
when `shoot_ball` pushed a bullet), and recompute `gun_orientation` from
`gun_traverse`. -/
def actuateEntity (now : ℕ) (dir : ℚ × ℚ) (pe : PhysicsEngine)
    (bullets : List Bullet) (e : Entity) :
    PhysicsEngine × List Bullet × Entity :=
  match pe.bodies.lookup e.handle with
  | none => (pe, bullets, e)
  | some rb =>
    let maxSpeed : ℚ := 100
    let leftSpeed := (e.motorLeft - mkRat 1 2) * 2 * maxSpeed
    let rightSpeed := (e.motorRight - mkRat 1 2) * 2 * maxSpeed
    let forward := (leftSpeed + rightSpeed) / 2
    let rotation := (rightSpeed - leftSpeed) / 40
    let rb1 := { rb with
      linvel := (forward * rb.rot.1, forward * rb.rot.2), angvel := rotation }
    let pe1 := pe.updateBody e.handle rb1
    let spawn :=
      if mkRat 1 2 < e.gunTrigger then shootBall e rb1 pe1 bullets dir now
      else (pe1, bullets)
    let e1 := { e with
      lastShot := if bullets.length < spawn.2.length then now else e.lastShot
      gunOrientation := e.gunTraverse }
    (spawn.1, spawn.2, e1)

/-- The `apply_actuators` loop over the entity list, threading the engine
and the bullet list. -/
def applyActuatorsGo (now : ℕ) (dirOf : Entity → ℚ × ℚ) (pe : PhysicsEngine)
    (bullets : List Bullet) : List Entity → PhysicsEngine × List Bullet × List Entity
  | [] => (pe, bullets, [])
  | e :: rest =>
    let (pe1, bullets1, e1) := actuateEntity now (dirOf e) pe bullets e
    let (pe2, bullets2, rest2) := applyActuatorsGo now dirOf pe1 bullets1 rest
    (pe2, bullets2, e1 :: rest2)

/-- `GameLogic::apply_actuators`. -/
def applyActuators (now : ℕ) (dirOf : Entity → ℚ × ℚ) (gl : GameLogic) :
    GameLogic :=
  let (pe, bullets, entities) :=
    applyActuatorsGo now dirOf gl.physicsEngine gl.bullets gl.entities
  { gl with physicsEngine := pe, bullets := bullets, entities := entities }

/-! ## GameLogic: collision handling -/

/-- `GameLogic::remove_bullet`: `Vec::remove(index)` plus freeing the
bullet's body. `Vec::remove` panics when `index` is past the end (`none`). -/
def GameLogic.removeBullet (gl : GameLogic) (index : ℕ) : Option GameLogic :=
  match gl.bullets.get? index with
  | some bullet =>
    some { gl with
      bullets := gl.bullets.eraseIdx index
      physicsEngine := gl.physicsEngine.removeBody bullet.handle }
  | none => none

/-- Remove the queued bullet indices one after the other (the source
iterates the queue after sorting it in descending order). -/
def removeBulletsDesc (gl : GameLogic) (idxs : List ℕ) : Option GameLogic :=
  idxs.foldlM GameLogic.removeBullet gl

/-- Processing of one collision event inside `handle_collisions`. The
accumulator carries the (mutable) entity list, the queued bullet indices
and the queued entity ids. Indexing the collider arena with a dead handle
panics (`none`); a collider without a parent body ends the event's
processing. The removal queue entry for the first bullet found in the
event precedes every damage consideration, and damage is applied only when
the struck entity is not the shooter (no self-damage) and the shooter
entity still exists. The source mutates the two entities through
`split_at_mut`; the guard `bullet.shooter != struck.handle` makes the two
indices distinct, so this is the same as the two `modifyAt` below. -/
def processEvent (bullets : List Bullet) (colliders : List (ℕ × Option ℕ))
    (acc : List Entity × List ℕ × List ℕ) (ev : CollisionEvent) :
    Option (List Entity × List ℕ × List ℕ) :=
  match ev with
  | .stopped _ _ => some acc
  | .started collider1 collider2 =>
    match colliders.lookup collider1, colliders.lookup collider2 with
    | some parent1, some parent2 =>
      match parent1, parent2 with
      | some body1, some body2 =>
        match findIdxAndElem? (fun bl => bl.handle == body1 || bl.handle == body2) bullets with
        | none => some acc
        | some (bulletIndex, bullet) =>
          let queued := acc.2.1 ++ [bulletIndex]
          match findIdxAndElem? (fun e => e.handle == body1 || e.handle == body2) acc.1 with
          | none => some (acc.1, queued, acc.2.2)
          | some (entityIndex, struck) =>
            if bullet.shooter ≠ struck.handle then
              match findIdxAndElem? (fun e => e.handle == bullet.shooter) acc.1 with
              | none => some (acc.1, queued, acc.2.2)
              | some (shooterIndex, _) =>
                let entities1 :=
                  modifyAt (modifyAt acc.1 entityIndex
                      (fun en => { en with health := en.health - 1 }))
                    shooterIndex (fun sh => { sh with score := sh.score + 1 })
                let ids1 :=
                  if struck.health - 1 ≤ 0 then acc.2.2 ++ [struck.id] else acc.2.2
                some (entities1, queued, ids1)
            else some (acc.1, queued, acc.2.2)
      | _, _ => some acc
    | _, _ => none

/-- `GameLogic::handle_collisions`: drain the event buffer, fold
`processEvent` over it, then remove the queued bullets in descending index
order and finally the queued dead entities by id. -/
def handleCollisions (gl : GameLogic) : Option GameLogic :=
  match gl.physicsEngine.collisionEvents.foldlM
      (processEvent gl.bullets gl.physicsEngine.colliders)
      (gl.entities, ([] : List ℕ), ([] : List ℕ)) with
  | none => none
  | some (entities1, bulletIndicesToRemove, entityIdsToRemove) =>
    let gl1 := { gl with
      entities := entities1
      physicsEngine := { gl.physicsEngine with collisionEvents := [] } }
    match removeBulletsDesc gl1 (sortDesc bulletIndicesToRemove) with
    | none => none
    | some gl2 => some (entityIdsToRemove.foldl GameLogic.removeEntityById gl2)

/-! ## GameLogic: bullet reaping -/

/-- The position test of `remove_out_of_bounds_bullets`: the source
compares both coordinates against the single constant `bounds = 1200.0`
(`x < 0 || x > bounds || y < 0 || y > bounds`). -/
def posOutOfBounds (p : ℚ × ℚ) : Bool :=
  decide (p.1 < 0) || decide ((1200 : ℚ) < p.1) ||
  decide (p.2 < 0) || decide ((1200 : ℚ) < p.2)

/-- The out-of-bounds test phrased on a bullet (the source reads
`bodies[bullet.handle].translation()` first). -/
def bulletOutOfBounds (pe : PhysicsEngine) (b : Bullet) : Bool :=
  match pe.bodies.lookup b.handle with
  | some bd => posOutOfBounds bd.pos
  | none => false

/-- `GameLogic::remove_out_of_bounds_bullets`: collect the indices of the
bullets whose position lies outside `[0, 1200] × [0, 1200]`, then remove
them in descending order. Reading the position of a bullet whose body is
gone panics (`none`). -/
def removeOutOfBoundsBullets (gl : GameLogic) : Option GameLogic :=
  match gl.bullets.mapM (fun b => (gl.physicsEngine.bodies.lookup b.handle).map Body.pos) with
  | none => none
  | some positions =>
    let idxs := indicesWhere posOutOfBounds positions
    removeBulletsDesc gl (sortDesc idxs)

/-- The expiry test of `remove_expired_bullets`:
`now.duration_since(created_at).as_secs() >= 2` with millisecond stamps. -/
def bulletExpired (now : ℕ) (b : Bullet) : Bool :=
  decide (2 ≤ (now - b.createdAt) / 1000)

/-- `GameLogic::remove_expired_bullets`: collect the indices of the bullets
at least 2 (truncated) seconds old, then remove them in descending order. -/
def removeExpiredBullets (now : ℕ) (gl : GameLogic) : Option GameLogic :=
  let idxs := indicesWhere (bulletExpired now) gl.bullets
  removeBulletsDesc gl (sortDesc idxs)

/-- The bullet-reaping tail of `GameLogic::step` (the two passes that run
right after `handle_collisions`). -/
def stepReap (now : ℕ) (gl : GameLogic) : Option GameLogic :=
  (removeOutOfBoundsBullets gl).bind (removeExpiredBullets now)

/-! ## Protocol constants and parsers

The command-code string constants live in `app_defines.rs`, which is not
under `src/`; they are modelled from the spec's §4.6 table. No claim
depends on the particular literals, only on the codes being distinct. The
argument separator is the character `'='` (visible in the source's own
example `COL=FF00FF` and in the replies such as `Use hex or R=G=B`). -/

/-- Modelled from the spec: `AppDefines::SET_NAME`. -/
def SET_NAME : String := "SET_NAME"

/-- Modelled from the spec: `AppDefines::SET_COLOR`. -/
def SET_COLOR : String := "SET_COLOR"

/-- Modelled from the spec: `AppDefines::ACTUATOR_MOTOR_LEFT`. -/
def ACTUATOR_MOTOR_LEFT : String := "ACTUATOR_MOTOR_LEFT"

/-- Modelled from the spec: `AppDefines::ACTUATOR_MOTOR_RIGHT`. -/
def ACTUATOR_MOTOR_RIGHT : String := "ACTUATOR_MOTOR_RIGHT"

/-- Modelled from the spec: `AppDefines::ACTUATOR_GUN_TRIGGER`. -/
def ACTUATOR_GUN_TRIGGER : String := "ACTUATOR_GUN_TRIGGER"

/-- Modelled from the spec: `AppDefines::ACTUATOR_GUN_TRAVERSE`. -/
def ACTUATOR_GUN_TRAVERSE : String := "ACTUATOR_GUN_TRAVERSE"

/-- Modelled from the spec: `AppDefines::QUIT`. -/
def QUIT_CODE : String := "QUIT"

/-- Modelled from the spec: `AppDefines::CONNECTION_TIMEOUT_DELAY`, the
inactivity timeout in seconds; its value is not recorded under `src/` and
no claim depends on it. -/
def CONNECTION_TIMEOUT_DELAY : ℕ := 60

/-- Rust's `str::trim` (on the ASCII whitespace the protocol can contain). -/
def trimAscii (s : String) : String :=
  ⟨((s.data.dropWhile Char.isWhitespace).reverse.dropWhile Char.isWhitespace).reverse⟩

/-- Character-list worker for `splitChar`. -/
def splitCharAux (sep : Char) : List Char → List Char → List (List Char)
  | [], acc => [acc.reverse]
  | c :: cs, acc =>
    if c = sep then acc.reverse :: splitCharAux sep cs []
    else splitCharAux sep cs (c :: acc)

/-- Rust's `str::split(sep)` for a character separator (`"A=B=" ↦ ["A","B",""]`). -/
def splitChar (sep : Char) (s : String) : List String :=
  (splitCharAux sep s.data []).map (fun l => ⟨l⟩)

/-- Value of a hexadecimal digit, if any. -/
def hexDigit? (c : Char) : Option ℕ :=
  if '0' ≤ c ∧ c ≤ '9' then some (c.toNat - 48)
  else if 'a' ≤ c ∧ c ≤ 'f' then some (c.toNat - 97 + 10)
  else if 'A' ≤ c ∧ c ≤ 'F' then some (c.toNat - 65 + 10)
  else none

/-- Value of a decimal digit, if any. -/
def decDigit? (c : Char) : Option ℕ :=
  if '0' ≤ c ∧ c ≤ '9' then some (c.toNat - 48) else none

/-- Accumulate digit values left to right; `none` on a non-digit. -/
def digitsToNat? (base : ℕ) (digit? : Char → Option ℕ) :
    List Char → ℕ → Option ℕ
  | [], acc => some acc
  | c :: cs, acc =>
    match digit? c with
    | some d => digitsToNat? base digit? cs (acc * base + d)
    | none => none

/-- Strip the optional leading `'+'` accepted by Rust's unsigned parsers. -/
def stripPlus : List Char → List Char
  | '+' :: rest => rest
  | cs => cs

/-- `u32::from_str_radix(s, 16)`: optional `'+'`, at least one hex digit,
value within `u32` range. -/
def parseHexU32 (s : String) : Option ℕ :=
  match stripPlus s.data with
  | [] => none
  | cs =>
    match digitsToNat? 16 hexDigit? cs 0 with
    | some v => if v < 4294967296 then some v else none
    | none => none

/-- `str::parse::<u8>()`: optional `'+'`, at least one decimal digit, value
within `u8` range. -/
def parseU8 (s : String) : Option ℕ :=
  match stripPlus s.data with
  | [] => none
  | cs =>
    match digitsToNat? 10 decDigit? cs 0 with
    | some v => if v < 256 then some v else none
    | none => none

/-- Numeric value of a list of decimal digits. -/
def decimalValue (cs : List Char) : ℕ :=
  cs.foldl (fun a c => a * 10 + (c.toNat - 48)) 0

/-- Models `str::parse::<f32>()` on plain decimal literals: optional sign,
integer digits, optional `'.'` and fractional digits (at least one digit
overall). Exponent, `inf` and `NaN` forms are not modelled; the claims
only feed this parser short decimals such as `0.25` that `f32` represents
exactly, so the exact rational returned here coincides with the parsed
float. -/
def parseF32Q (s : String) : Option ℚ :=
  let signAndRest : ℤ × List Char :=
    match s.data with
    | '-' :: r => (-1, r)
    | '+' :: r => (1, r)
    | r => (1, r)
  let sign := signAndRest.1
  let rest := signAndRest.2
  let intPart := rest.takeWhile Char.isDigit
  let rest2 := rest.drop intPart.length
  match rest2 with
  | [] =>
    if intPart.isEmpty then none
    else some (mkRat (sign * decimalValue intPart) 1)
  | '.' :: fracPart =>
    if fracPart.all Char.isDigit ∧ ¬(intPart.isEmpty ∧ fracPart.isEmpty) then
      some (mkRat (sign * ((decimalValue intPart) * 10 ^ fracPart.length + decimalValue fracPart))
        (10 ^ fracPart.length))
    else none
  | _ => none

/-! ## The client handler -/

/-- The server-side state a client handler touches: the shared
socket-address→entity-id map and the shared game state. Peer addresses are
opaque strings. -/
structure ServerState where
  clientEntityMap : List (String × ℕ)
  gameLogic : GameLogic
deriving DecidableEq

/-- `ClientHandler::handle_disconnection`: atomically take the peer's map
entry; when one existed, remove the bound entity from the world. -/
def handleDisconnection (peer : String) (s : ServerState) : ServerState :=
  match s.clientEntityMap.lookup peer with
  | some entityId =>
    { clientEntityMap := s.clientEntityMap.filter (fun kv => kv.1 != peer)
      gameLogic := s.gameLogic.removeEntityById entityId }
  | none => s

/-- `ClientHandler::check_timeout`: when the inactivity window is exceeded,
take the peer's map entry, remove the bound entity if there was one, and
report `true` (the connection is then shut down); otherwise `false`. -/
def checkTimeout (peer : String) (previousTime currentTime : ℕ)
    (s : ServerState) : Bool × ServerState :=
  if CONNECTION_TIMEOUT_DELAY < currentTime - previousTime then
    match s.clientEntityMap.lookup peer with
    | some entityId =>
      (true,
        { clientEntityMap := s.clientEntityMap.filter (fun kv => kv.1 != peer)
          gameLogic := s.gameLogic.removeEntityById entityId })
    | none => (true, s)
  else (false, s)

/-- Decimal rendering used for the actuator echo reply; the exact text of
the success echo is irrelevant to every claim. -/
def ratText (q : ℚ) : String :=
  toString q.num ++ "/" ++ toString q.den

/-- `ClientHandler::process_message`: resolve the peer's entity id
(defaulting to 0), split the sub-command on `'='`, and dispatch. Returns
the new state and the reply (`none` for `QUIT`, which runs the
disconnection instead of writing a reply). -/
def processMessage (peer : String) (received : String) (s : ServerState) :
    ServerState × Option String :=
  let entityId := (s.clientEntityMap.lookup peer).getD 0
  let parts := splitChar '=' (trimAscii received)
  let code := trimAscii (parts.headD "")
  let args := parts.tail
  if code = SET_NAME then
    match args.head? with
    | some name =>
      match s.gameLogic.updateEntityFirst entityId (fun e => { e with name := name }) with
      | some gl1 => ({ s with gameLogic := gl1 }, some ("Name set to " ++ name))
      | none => (s, some "Entity not found")
    | none => (s, some "Missing name")
  else if code = SET_COLOR then
    if args.isEmpty then (s, some "Missing color value")
    else if args.length = 1 then
      match parseHexU32 (args.headD "") with
      | some hex =>
        let r := (hex >>> 16) &&& 255
        let g := (hex >>> 8) &&& 255
        let b := hex &&& 255
        match s.gameLogic.updateEntityFirst entityId (fun e => { e with color := (r, g, b) }) with
        | some gl1 =>
          ({ s with gameLogic := gl1 },
            some ("Color set to RGB(" ++ toString r ++ ", " ++ toString g ++
              ", " ++ toString b ++ ")"))
        | none => (s, some "Entity not found")
      | none => (s, some "Invalid color hex value")
    else if args.length = 3 then
      match parseU8 (trimAscii (args.getD 0 "")), parseU8 (trimAscii (args.getD 1 "")),
          parseU8 (trimAscii (args.getD 2 "")) with
      | some r, some g, some b =>
        match s.gameLogic.updateEntityFirst entityId (fun e => { e with color := (r, g, b) }) with
        | some gl1 =>
          ({ s with gameLogic := gl1 },
            some ("Color set to RGB(" ++ toString r ++ ", " ++ toString g ++
              ", " ++ toString b ++ ")"))
        | none => (s, some "Entity not found")
      | _, _, _ => (s, some "Invalid RGB values")
    else (s, some "Invalid color format. Use hex or R=G=B")
  else if code = ACTUATOR_MOTOR_LEFT ∨ code = ACTUATOR_MOTOR_RIGHT ∨
      code = ACTUATOR_GUN_TRIGGER ∨ code = ACTUATOR_GUN_TRAVERSE then
    match args.head? with
    | some valStr =>
      match parseF32Q (trimAscii valStr) with
      | some val =>
        match s.gameLogic.updateEntityFirst entityId (fun ent =>
            if code = ACTUATOR_MOTOR_LEFT then { ent with motorLeft := val }
            else if code = ACTUATOR_MOTOR_RIGHT then { ent with motorRight := val }
            else if code = ACTUATOR_GUN_TRIGGER then { ent with gunTrigger := val }
            else { ent with gunTraverse := val }) with
        | some gl1 =>
          ({ s with gameLogic := gl1 }, some (code ++ " set to " ++ ratText val))
        | none => (s, some "Entity not found")
      | none => (s, some "Invalid float value")
    | none => (s, some "Missing value")
  else if code = QUIT_CODE then
    (handleDisconnection peer s, none)
  else (s, some ("Unknown command: " ++ code))

/-! ## Spec-side definitions (for refinement comparisons) -/

/-- Written from the spec's words in §4.2: the affine rescaling of a motor
value from `[0, 1]` onto `[-max_speed, max_speed]` (so `0 ↦ -100`,
`0.5 ↦ 0`, `1 ↦ 100` with `max_speed = 100`). -/
def specMotorRescale (x : ℚ) : ℚ := -100 + 200 * x

/-- Modelled from the spec: `AppDefines::ARENA_WIDTH`. `app_defines.rs` is
not under `src/`; the value 1200 is the arena width drawn by the
repository's own UI (`ui/game_ui`, a 1200 × 1000 rectangle) and matches
the spawn ranges `10.0..1190.0`. -/
def ARENA_WIDTH : ℚ := 1200

/-- Modelled from the spec: `AppDefines::ARENA_HEIGHT`. `app_defines.rs`
is not under `src/`; the value 1000 is the arena height drawn by the
repository's own UI (`ui/game_ui`, a 1200 × 1000 rectangle) and matches
the spawn ranges `10.0..990.0`. -/
def ARENA_HEIGHT : ℚ := 1000

/-- One run of the simulation driver's collision phase against the shared
server state: the tick thread locks the game logic and advances it; the
socket-address→entity-id map is, by construction, not visible to
`GameLogic` and hence untouched. -/
def deathStep (s : ServerState) : Option ServerState :=
  (handleCollisions s.gameLogic).map (fun gl => { s with gameLogic := gl })

/-- Specification-side predicate: the argument list of a mutating
sub-command passes the argument validation that `process_message` performs
before it looks the entity up (present name for `SET_NAME`; one parseable
hex argument or three parseable `u8` arguments for `SET_COLOR`; one
parseable float for the actuator codes). -/
def argsWellFormed (code : String) (args : List String) : Bool :=
  if code = SET_NAME then args.head?.isSome
  else if code = SET_COLOR then
    (args.length == 1 && (parseHexU32 (args.headD "")).isSome) ||
    (args.length == 3 && (parseU8 (trimAscii (args.getD 0 ""))).isSome &&
      (parseU8 (trimAscii (args.getD 1 ""))).isSome &&
      (parseU8 (trimAscii (args.getD 2 ""))).isSome)
  else
    match args.head? with
    | some v => (parseF32Q (trimAscii v)).isSome
    | none => false

/-! ## Helper lemmas -/


theorem lookup_filter_ne_none {α β : Type _} [BEq α] [LawfulBEq α] (k : α)
    (l : List (α × β)) : (l.filter (fun kv => kv.1 != k)).lookup k = none := by
  induction l with
  | nil => rfl
  | cons kv tl ih =>
    obtain ⟨a, b⟩ := kv
    by_cases h : a = k
    · subst h
      simpa [List.filter_cons] using ih
    · simp only [List.filter_cons]
      have hne : (a != k) = true := by simp [bne, h]
      rw [if_pos hne]
      have hke : (k == a) = false := by simp [Ne.symm h]
      simp [List.lookup_cons, hke, ih]

theorem lookup_filter_none_of_none {α β : Type _} [BEq α] [LawfulBEq α] (k : α)
    (q : α × β → Bool) (l : List (α × β)) (hl : l.lookup k = none) :
    (l.filter q).lookup k = none := by
  induction l with
  | nil => rfl
  | cons kv tl ih =>
    obtain ⟨a, b⟩ := kv
    rw [List.lookup_cons] at hl
    by_cases h : k = a
    · simp [h] at hl
    · have hke : (k == a) = false := by simp [h]
      rw [hke] at hl
      by_cases hq : q (a, b)
      · simp [List.filter_cons, hq, List.lookup_cons, hke, ih hl]
      · simp [List.filter_cons, hq, ih hl]

theorem lookup_updateKey_self (l : List (ℕ × Body)) (h : ℕ) (b v : Body)
    (hl : l.lookup h = some v) : (updateKey l h b).lookup h = some b := by
  induction l with
  | nil => simp [List.lookup] at hl
  | cons kv tl ih =>
    obtain ⟨a, w⟩ := kv
    by_cases hk : a = h
    · subst hk
      simp [updateKey, List.lookup_cons]
    · rw [List.lookup_cons] at hl
      have hke : (h == a) = false := by simp [Ne.symm hk]
      rw [hke] at hl
      simp only [updateKey, if_neg hk]
      simp [List.lookup_cons, hke, ih hl]

theorem mem_keys_of_lookup {α β : Type _} [BEq α] [LawfulBEq α]
    (l : List (α × β)) (k : α) (v : β) (hl : l.lookup k = some v) :
    k ∈ l.map Prod.fst := by
  induction l with
  | nil => simp [List.lookup] at hl
  | cons kv tl ih =>
    obtain ⟨a, w⟩ := kv
    rw [List.lookup_cons] at hl
    by_cases h : k = a
    · simp [h]
    · have hke : (k == a) = false := by simp [h]
      rw [hke] at hl
      simp [ih hl]

theorem mem_le_keysMax (l : List ℕ) (k : ℕ) (h : k ∈ l) : k ≤ keysMax l := by
  induction l with
  | nil => simp at h
  | cons a tl ih =>
    rcases List.mem_cons.mp h with rfl | h2
    · exact le_max_left _ _
    · exact le_trans (ih h2) (le_max_right _ _)

theorem lookup_ne_freshBodyHandle (pe : PhysicsEngine) (k : ℕ) (v : Body)
    (hl : pe.bodies.lookup k = some v) : k ≠ pe.freshBodyHandle := by
  have hk := mem_le_keysMax _ _ (mem_keys_of_lookup pe.bodies k v hl)
  intro he
  rw [he] at hk
  exact absurd hk (by simp [PhysicsEngine.freshBodyHandle])

theorem get?_modifyAt_self (l : List α) (i : ℕ) (f : α → α) (a : α)
    (h : l.get? i = some a) : (modifyAt l i f).get? i = some (f a) := by
  induction l generalizing i with
  | nil => simp at h
  | cons x xs ih =>
    cases i with
    | zero => simp_all [modifyAt]
    | succ j => simpa [modifyAt] using ih j (by simpa using h)

theorem get?_modifyAt_ne (l : List α) (i j : ℕ) (f : α → α) (hij : i ≠ j) :
    (modifyAt l i f).get? j = l.get? j := by
  induction l generalizing i j with
  | nil => cases i <;> simp [modifyAt]
  | cons x xs ih =>
    cases i with
    | zero =>
      cases j with
      | zero => exact absurd rfl hij
      | succ j2 => simp [modifyAt]
    | succ i2 =>
      cases j with
      | zero => simp [modifyAt]
      | succ j2 => simpa [modifyAt] using ih i2 j2 (by omega)

theorem findIdxAndElem?_some (p : α → Bool) :
    ∀ (l : List α) (i : ℕ) (a : α), findIdxAndElem? p l = some (i, a) →
      l.get? i = some a ∧ p a = true := by
  intro l
  induction l with
  | nil => intro i a h; simp [findIdxAndElem?] at h
  | cons x xs ih =>
    intro i a h
    by_cases hp : p x
    · rw [findIdxAndElem?, if_pos hp] at h
      have h2 := Option.some.inj h
      obtain ⟨rfl, rfl⟩ : 0 = i ∧ x = a :=
        ⟨congrArg Prod.fst h2, congrArg Prod.snd h2⟩
      exact ⟨rfl, hp⟩
    · rw [findIdxAndElem?, if_neg hp] at h
      cases hrec : findIdxAndElem? p xs with
      | none => rw [hrec] at h; simp at h
      | some ia =>
        obtain ⟨i2, a2⟩ := ia
        rw [hrec] at h
        rw [show ((some (i2, a2)).map (fun ia => (ia.1 + 1, ia.2))) =
          some (i2 + 1, a2) from rfl] at h
        have h2 := Option.some.inj h
        obtain ⟨rfl, rfl⟩ : i2 + 1 = i ∧ a2 = a :=
          ⟨congrArg Prod.fst h2, congrArg Prod.snd h2⟩
        have hx := ih i2 a2 hrec
        exact ⟨by simpa using hx.1, hx.2⟩

theorem indicesWhere_sorted (p : α → Bool) :
    ∀ l : List α, (indicesWhere p l).Sorted (· < ·) := by
  intro l
  induction l with
  | nil => exact List.sorted_nil
  | cons x xs ih =>
    by_cases hp : p x
    · simp only [indicesWhere, if_pos hp]
      rw [List.sorted_cons]
      refine ⟨?_, List.Pairwise.map _ (fun a b hab => Nat.succ_lt_succ hab) ih⟩
      intro b hb
      simp only [List.mem_map] at hb
      obtain ⟨a, _, rfl⟩ := hb
      omega
    · simp only [indicesWhere, if_neg hp]
      exact List.Pairwise.map _ (fun a b hab => Nat.succ_lt_succ hab) ih

theorem sortDesc_eq_reverse (l : List ℕ) (h : l.Sorted (· < ·)) :
    sortDesc l = l.reverse := by
  haveI ht : IsTotal ℕ (fun a b => b ≤ a) := ⟨fun a b => (le_total b a).imp id id⟩
  haveI htr : IsTrans ℕ (fun a b => b ≤ a) := ⟨fun a b c hab hbc => le_trans hbc hab⟩
  haveI ha : IsAntisymm ℕ (fun a b => b ≤ a) := ⟨fun a b h1 h2 => le_antisymm h2 h1⟩
  exact @List.eq_of_perm_of_sorted ℕ (fun a b => b ≤ a) ha _ _
    ((List.perm_insertionSort _ l).trans (List.reverse_perm l).symm)
    (List.sorted_insertionSort _ l)
    (List.pairwise_reverse.mpr (h.imp le_of_lt))

theorem removeBullet_succ (pe : PhysicsEngine) (ents : List Entity)
    (obs : List Obstacle) (x : Bullet) (xs : List Bullet) (i : ℕ) :
    GameLogic.removeBullet ⟨pe, ents, x :: xs, obs⟩ (i + 1) =
      (GameLogic.removeBullet ⟨pe, ents, xs, obs⟩ i).map
        (fun g => { g with bullets := x :: g.bullets }) := by
  unfold GameLogic.removeBullet
  cases hg : xs.get? i with
  | none => simp [← List.get?_eq_getElem?, hg]
  | some b => simp [← List.get?_eq_getElem?, hg, List.eraseIdx_cons_succ]

theorem removeBulletsDesc_map_succ (idxs : List ℕ) :
    ∀ (pe : PhysicsEngine) (ents : List Entity) (obs : List Obstacle)
      (x : Bullet) (xs : List Bullet),
      removeBulletsDesc ⟨pe, ents, x :: xs, obs⟩ (idxs.map (· + 1)) =
        (removeBulletsDesc ⟨pe, ents, xs, obs⟩ idxs).map
          (fun g => { g with bullets := x :: g.bullets }) := by
  induction idxs with
  | nil => intro pe ents obs x xs; rfl
  | cons i idxs ih =>
    intro pe ents obs x xs
    simp only [List.map_cons]
    rw [removeBulletsDesc, List.foldlM_cons, removeBullet_succ]
    rw [removeBulletsDesc, List.foldlM_cons]
    cases hg : GameLogic.removeBullet ⟨pe, ents, xs, obs⟩ i with
    | none => rfl
    | some g =>
      obtain ⟨pe2, ents2, bs2, obs2⟩ := g
      have hih := ih pe2 ents2 obs2 x bs2
      rw [removeBulletsDesc] at hih
      simpa using hih

theorem removeBulletsDesc_append_single (gl : GameLogic) (l : List ℕ) (j : ℕ) :
    removeBulletsDesc gl (l ++ [j]) =
      (removeBulletsDesc gl l).bind (fun g => GameLogic.removeBullet g j) := by
  rw [removeBulletsDesc, List.foldlM_append]
  cases hg : removeBulletsDesc gl l with
  | none => rw [removeBulletsDesc] at hg; rw [hg]; rfl
  | some g =>
    rw [removeBulletsDesc] at hg
    rw [hg]
    show List.foldlM GameLogic.removeBullet g [j] = GameLogic.removeBullet g j
    rw [List.foldlM_cons]
    cases GameLogic.removeBullet g j <;> rfl

theorem removeBulletsDesc_filter (p : Bullet → Bool) :
    ∀ (bs : List Bullet) (pe : PhysicsEngine) (ents : List Entity) (obs : List Obstacle),
      ∃ pe2 : PhysicsEngine,
        removeBulletsDesc ⟨pe, ents, bs, obs⟩ ((indicesWhere p bs).reverse) =
          some ⟨pe2, ents, bs.filter (fun b => !(p b)), obs⟩ ∧
        (∀ h : ℕ, (∃ b ∈ bs, p b = true ∧ b.handle = h) →
          pe2.bodies.lookup h = none) ∧
        (∀ h : ℕ, pe.bodies.lookup h = none → pe2.bodies.lookup h = none) := by
  intro bs
  induction bs with
  | nil =>
    intro pe ents obs
    exact ⟨pe, rfl, by simp, fun h hh => hh⟩
  | cons x xs ih =>
    intro pe ents obs
    by_cases hp : p x
    · obtain ⟨pe2, hrun, hfreed, hmono⟩ := ih pe ents obs
      refine ⟨pe2.removeBody x.handle, ?_, ?_, ?_⟩
      · rw [indicesWhere, if_pos hp, List.reverse_cons, ← List.map_reverse]
        rw [removeBulletsDesc_append_single, removeBulletsDesc_map_succ, hrun]
        show (GameLogic.removeBullet
          ⟨pe2, ents, x :: xs.filter (fun b => !(p b)), obs⟩ 0) = _
        rw [GameLogic.removeBullet]
        simp [hp, List.filter_cons]
      · intro h hh
        obtain ⟨b, hb, hpb, hbh⟩ := hh
        rcases List.mem_cons.mp hb with rfl | hbxs
        · subst hbh
          exact lookup_filter_ne_none _ _
        · have h2 := hfreed h ⟨b, hbxs, hpb, hbh⟩
          exact lookup_filter_none_of_none _ _ _ h2
      · intro h hh
        exact lookup_filter_none_of_none _ _ _ (hmono h hh)
    · obtain ⟨pe2, hrun, hfreed, hmono⟩ := ih pe ents obs
      refine ⟨pe2, ?_, ?_, hmono⟩
      · rw [indicesWhere, if_neg hp, ← List.map_reverse]
        rw [show removeBulletsDesc ⟨pe, ents, x :: xs, obs⟩
            ((indicesWhere p xs).reverse.map (fun x => x + 1)) =
          removeBulletsDesc ⟨pe, ents, x :: xs, obs⟩
            ((indicesWhere p xs).reverse.map (· + 1)) from rfl]
        rw [removeBulletsDesc_map_succ, hrun]
        simp [List.filter_cons, hp]
      · intro h hh
        obtain ⟨b, hb, hpb, hbh⟩ := hh
        rcases List.mem_cons.mp hb with rfl | hbxs
        · exact absurd hpb (by simp [hp])
        · exact hfreed h ⟨b, hbxs, hpb, hbh⟩

theorem mapM_pos_indicesWhere (pe : PhysicsEngine) :
    ∀ bs : List Bullet, (∀ b ∈ bs, (pe.bodies.lookup b.handle).isSome = true) →
      ∃ ps : List (ℚ × ℚ),
        bs.mapM (fun b => (pe.bodies.lookup b.handle).map Body.pos) = some ps ∧
        indicesWhere posOutOfBounds ps = indicesWhere (bulletOutOfBounds pe) bs := by
  intro bs
  induction bs with
  | nil => exact fun _ => ⟨[], rfl, rfl⟩
  | cons x xs ih =>
    intro hall
    obtain ⟨ps, hmap, hidx⟩ := ih (fun b hb => hall b (List.mem_cons_of_mem _ hb))
    have hx := hall x (List.mem_cons_self x xs)
    cases hlx : pe.bodies.lookup x.handle with
    | none => rw [hlx] at hx; simp at hx
    | some bd =>
      refine ⟨bd.pos :: ps, ?_, ?_⟩
      · rw [List.mapM_cons, hlx]
        show ((List.mapM (fun b => Option.map Body.pos (List.lookup b.handle pe.bodies)) xs).bind
          fun l => some (bd.pos :: l)) = some (bd.pos :: ps)
        rw [hmap]
        rfl
      · simp only [indicesWhere]
        have hob : bulletOutOfBounds pe x = posOutOfBounds bd.pos := by
          rw [bulletOutOfBounds, hlx]
        rw [hob, hidx]

theorem removeOutOfBounds_run (pe : PhysicsEngine) (ents : List Entity)
    (obs : List Obstacle) (bs : List Bullet)
    (hall : ∀ b ∈ bs, (pe.bodies.lookup b.handle).isSome = true) :
    ∃ pe2 : PhysicsEngine,
      removeOutOfBoundsBullets ⟨pe, ents, bs, obs⟩ =
        some ⟨pe2, ents, bs.filter (fun b => !(bulletOutOfBounds pe b)), obs⟩ ∧
      (∀ h : ℕ, (∃ b ∈ bs, bulletOutOfBounds pe b = true ∧ b.handle = h) →
        pe2.bodies.lookup h = none) ∧
      (∀ h : ℕ, pe.bodies.lookup h = none → pe2.bodies.lookup h = none) := by
  obtain ⟨ps, hmap, hidx⟩ := mapM_pos_indicesWhere pe bs hall
  obtain ⟨pe2, hrun, hfreed, hmono⟩ :=
    removeBulletsDesc_filter (bulletOutOfBounds pe) bs pe ents obs
  refine ⟨pe2, ?_, hfreed, hmono⟩
  rw [removeOutOfBoundsBullets]
  show (match bs.mapM (fun b => (pe.bodies.lookup b.handle).map Body.pos) with
    | none => none
    | some positions =>
      removeBulletsDesc ⟨pe, ents, bs, obs⟩ (sortDesc (indicesWhere posOutOfBounds positions))) = _
  rw [hmap]
  show removeBulletsDesc ⟨pe, ents, bs, obs⟩ (sortDesc (indicesWhere posOutOfBounds ps)) = _
  rw [hidx, sortDesc_eq_reverse _ (indicesWhere_sorted _ _), hrun]

theorem removeExpired_run (now : ℕ) (pe : PhysicsEngine) (ents : List Entity)
    (obs : List Obstacle) (bs : List Bullet) :
    ∃ pe2 : PhysicsEngine,
      removeExpiredBullets now ⟨pe, ents, bs, obs⟩ =
        some ⟨pe2, ents, bs.filter (fun b => !(bulletExpired now b)), obs⟩ ∧
      (∀ h : ℕ, (∃ b ∈ bs, bulletExpired now b = true ∧ b.handle = h) →
        pe2.bodies.lookup h = none) ∧
      (∀ h : ℕ, pe.bodies.lookup h = none → pe2.bodies.lookup h = none) := by
  obtain ⟨pe2, hrun, hfreed, hmono⟩ :=
    removeBulletsDesc_filter (bulletExpired now) bs pe ents obs
  refine ⟨pe2, ?_, hfreed, hmono⟩
  rw [removeExpiredBullets]
  rw [sortDesc_eq_reverse _ (indicesWhere_sorted _ _), hrun]

theorem lookup_shootBall (sh : Entity) (sb : Body) (pe : PhysicsEngine)
    (bullets : List Bullet) (dir : ℚ × ℚ) (now : ℕ) (k : ℕ) (v : Body)
    (hv : pe.bodies.lookup k = some v) :
    (shootBall sh sb pe bullets dir now).1.bodies.lookup k = some v := by
  rw [shootBall]
  by_cases hcool : now - sh.lastShot < BOT_RATE_OF_FIRE
  · simp only [if_pos hcool]
    exact hv
  · simp only [if_neg hcool, bulletNew, PhysicsEngine.insertColliderWithParent,
      PhysicsEngine.insertBody]
    have hne : k ≠ pe.freshBodyHandle := lookup_ne_freshBodyHandle pe k v hv
    rw [List.lookup_cons]
    have hkf : (k == pe.freshBodyHandle) = false := by simp [hne]
    rw [hkf]
    exact hv

theorem findIdx?_id_zero_none (l : List Entity) (hid : ∀ e ∈ l, 1 ≤ e.id) :
    l.findIdx? (fun e => e.id == 0) = none := by
  induction l with
  | nil => rfl
  | cons x xs ih =>
    have hx : (x.id == 0) = false := by
      have h1 := hid x (List.mem_cons_self x xs)
      simp only [beq_eq_false_iff_ne, ne_eq]
      omega
    rw [List.findIdx?_cons, hx]
    simp [ih (fun e he => hid e (List.mem_cons_of_mem _ he))]

/-! ## Concrete scenario fixtures

Fully specified states used by the counterexamples and witnesses below.
Only the fields that a scenario exercises vary; everything else carries the
values `Entity::new` would produce. -/

/-- An entity literal with the given id, body handle and health. -/
def witEntity (id handle : ℕ) (health : ℤ) : Entity :=
  { id := id, name := "bot", score := 0, handle := handle, isAi := false,
    lastShot := 0, x := 0, y := 0, selfOrientation := 0, gunOrientation := 0,
    targetX := 0, targetY := 0, color := (220, 220, 220),
    motorLeft := mkRat 1 2, motorRight := mkRat 1 2, gunTrigger := 0,
    gunTraverse := mkRat 1 2, health := health }

/-- A body literal at the given position, at rest, with rotation 0. -/
def witBody (pos : ℚ × ℚ) : Body :=
  { pos := pos, rot := (1, 0), linvel := (0, 0), angvel := 0 }

/-- Scenario for C1: entity 1 (handle 10) is struck by a bullet whose
shooter handle 99 belongs to no live entity. -/
def glC1x : GameLogic :=
  { physicsEngine :=
      { bodies := [(10, witBody (5, 5)), (20, witBody (6, 6))]
        colliders := [(200, some 20), (100, some 10)]
        collisionEvents := [.started 200 100] }
    entities := [witEntity 1 10 1]
    bullets := [⟨20, 99, 0⟩]
    obstacles := [] }

/-- Scenario for C3: the single bullet (handle 20) begins contact with two
different colliders (parents 50 and 60) in the same tick, so the event
buffer holds two started events naming the same bullet. -/
def glC3x : GameLogic :=
  { physicsEngine :=
      { bodies := [(20, witBody (6, 6)), (50, witBody (7, 7)), (60, witBody (8, 8))]
        colliders := [(200, some 20), (201, some 50), (202, some 60)]
        collisionEvents := [.started 200 201, .started 200 202] }
    entities := []
    bullets := [⟨20, 99, 0⟩]
    obstacles := [] }

/-- Scenario for C4: the client at address "c" is bound to entity 1
(health 1); entity 2's bullet is about to hit entity 1 and kill it. -/
def sC4x : ServerState :=
  { clientEntityMap := [("c", 1)]
    gameLogic :=
      { physicsEngine :=
          { bodies := [(10, witBody (5, 5)), (11, witBody (7, 7)), (20, witBody (6, 6))]
            colliders := [(200, some 20), (100, some 10)]
            collisionEvents := [.started 200 100] }
        entities := [witEntity 1 10 1, witEntity 2 11 5]
        bullets := [⟨20, 11, 0⟩]
        obstacles := [] } }

/-- Scenario for C5/C9 and several witnesses: the client at address "c" is
bound to the single live entity 1 (handle 10, body present). -/
def sC5x : ServerState :=
  { clientEntityMap := [("c", 1)]
    gameLogic :=
      { physicsEngine :=
          { bodies := [(10, witBody (5, 5))]
            colliders := [(101, some 10)]
            collisionEvents := [] }
        entities := [witEntity 1 10 1]
        bullets := []
        obstacles := [] } }

/-- Scenario for C6's counterexample: a fresh bullet whose body sits at
(600, 1100) — inside the code's `[0,1200]²` square but above the arena's
1000-unit height. -/
def glC6x : GameLogic :=
  { physicsEngine :=
      { bodies := [(20, witBody (600, 1100))]
        colliders := [(300, some 20)]
        collisionEvents := [] }
    entities := []
    bullets := [⟨20, 99, 0⟩]
    obstacles := [] }

/-- Scenario for C6's witness: a 2000 ms old bullet, in bounds. -/
def glC6w : GameLogic :=
  { physicsEngine :=
      { bodies := [(20, witBody (5, 5))]
        colliders := [(300, some 20)]
        collisionEvents := [] }
    entities := []
    bullets := [⟨20, 99, 0⟩]
    obstacles := [] }

/-- Scenario for C10: no socket binding at all, one live entity with id 1. -/
def sC10x : ServerState :=
  { clientEntityMap := []
    gameLogic :=
      { physicsEngine := { bodies := [], colliders := [], collisionEvents := [] }
        entities := [witEntity 1 10 1]
        bullets := []
        obstacles := [] } }

/-! ## Claims -/

/-- C1, counterexample to the claim as stated. In `glC1x` a collision-start
event strikes entity 1 with a bullet whose retained shooter handle (99)
belongs to no live entity. The claim says the struck entity's health is
still decremented (here: from 1 to 0) with only the score skipped;
`handle_collisions` instead leaves the health at 1 — the damage code sits
inside the `if let` that looks the shooter up — while still consuming the
bullet. -/
theorem c1_counterexample :
    glC1x.entities.map (fun e => (e.id, e.health)) = [(1, 1)] ∧
    (handleCollisions glC1x).map
      (fun g => (g.entities.map (fun e => (e.id, e.health)), g.bullets.length)) =
      some ([(1, 1)], 0) := by decide

/-- C1 (amended): for every collision-start event that resolves to two
bodies and hits a first-matching bullet and a first-matching struck entity
whose handle differs from the bullet's shooter handle: the bullet's index
is queued for removal; if the shooter entity still exists, the struck
entity's health drops by exactly 1, the shooter's score rises by exactly
1, and when the new health is ≤ 0 the struck entity is queued for removal
by its id (not its index); if the shooter entity no longer exists, neither
health nor score changes and nothing is queued for entity removal. -/
theorem c1_amended_theorem (bullets : List Bullet) (colliders : List (ℕ × Option ℕ))
    (ents : List Entity) (idxs ids : List ℕ) (c1 c2 body1 body2 : ℕ)
    (i : ℕ) (bl : Bullet) (j : ℕ) (struck : Entity)
    (h1 : colliders.lookup c1 = some (some body1))
    (h2 : colliders.lookup c2 = some (some body2))
    (hb : findIdxAndElem? (fun b => b.handle == body1 || b.handle == body2) bullets
      = some (i, bl))
    (he : findIdxAndElem? (fun e => e.handle == body1 || e.handle == body2) ents
      = some (j, struck))
    (hne : bl.shooter ≠ struck.handle) :
    (findIdxAndElem? (fun e => e.handle == bl.shooter) ents = none →
      processEvent bullets colliders (ents, idxs, ids) (.started c1 c2) =
        some (ents, idxs ++ [i], ids)) ∧
    (∀ (k : ℕ) (sh : Entity),
      findIdxAndElem? (fun e => e.handle == bl.shooter) ents = some (k, sh) →
      processEvent bullets colliders (ents, idxs, ids) (.started c1 c2) =
        some (modifyAt (modifyAt ents j (fun en => { en with health := en.health - 1 }))
            k (fun s2 => { s2 with score := s2.score + 1 }),
          idxs ++ [i],
          if struck.health - 1 ≤ 0 then ids ++ [struck.id] else ids) ∧
      (modifyAt (modifyAt ents j (fun en => { en with health := en.health - 1 }))
          k (fun s2 => { s2 with score := s2.score + 1 })).get? j =
        some { struck with health := struck.health - 1 } ∧
      (modifyAt (modifyAt ents j (fun en => { en with health := en.health - 1 }))
          k (fun s2 => { s2 with score := s2.score + 1 })).get? k =
        some { sh with score := sh.score + 1 }) := by
  constructor
  · intro hnone
    rw [processEvent, h1, h2]
    simp [hb, he, hne, hnone]
  · intro k sh hk
    have hj := findIdxAndElem?_some _ ents j struck he
    have hks := findIdxAndElem?_some _ ents k sh hk
    have hshh : sh.handle = bl.shooter := by simpa using hks.2
    have hjk : j ≠ k := by
      intro hjk
    -- placeholder
      subst hjk
      have heq : struck = sh := Option.some.inj (hj.1.symm.trans hks.1)
      rw [heq, hshh] at hne
      exact hne rfl
    refine ⟨?_, ?_, ?_⟩
    · rw [processEvent, h1, h2]
      simp [hb, he, hne, hk]
    · rw [get?_modifyAt_ne _ _ _ _ (Ne.symm hjk)]
      exact get?_modifyAt_self _ _ _ _ hj.1
    · have hkk : (modifyAt ents j (fun en => { en with health := en.health - 1 })).get? k
          = some sh := by
        rw [get?_modifyAt_ne _ _ _ _ hjk]
        exact hks.1
      exact get?_modifyAt_self _ _ _ _ hkk

/-- C1 witness: the amended theorem applied to a concrete two-entity state
in which entity 2 (handle 11) shoots entity 1 (handle 10). -/
theorem c1_amended_witness :
    (([(200, some 20), (100, some 10)] : List (ℕ × Option ℕ)).lookup 200 =
      some (some 20)) ∧
    (([(200, some 20), (100, some 10)] : List (ℕ × Option ℕ)).lookup 100 =
      some (some 10)) ∧
    (findIdxAndElem? (fun b => b.handle == 20 || b.handle == 10)
      [(⟨20, 11, 0⟩ : Bullet)] = some (0, ⟨20, 11, 0⟩)) ∧
    (findIdxAndElem? (fun e => e.handle == 20 || e.handle == 10)
      [witEntity 1 10 1, witEntity 2 11 5] = some (0, witEntity 1 10 1)) ∧
    ((⟨20, 11, 0⟩ : Bullet).shooter ≠ (witEntity 1 10 1).handle) ∧
    (findIdxAndElem? (fun e => e.handle == (⟨20, 11, 0⟩ : Bullet).shooter)
      [witEntity 1 10 1, witEntity 2 11 5] = some (1, witEntity 2 11 5)) ∧
    processEvent [⟨20, 11, 0⟩] [(200, some 20), (100, some 10)]
        ([witEntity 1 10 1, witEntity 2 11 5], [], []) (.started 200 100) =
      some (modifyAt (modifyAt [witEntity 1 10 1, witEntity 2 11 5] 0
            (fun en => { en with health := en.health - 1 })) 1
          (fun s2 => { s2 with score := s2.score + 1 }),
        [] ++ [0],
        if (witEntity 1 10 1).health - 1 ≤ 0 then [] ++ [(witEntity 1 10 1).id]
        else []) :=
  ⟨by decide, by decide, by decide, by decide, by decide, by decide,
    ((c1_amended_theorem [⟨20, 11, 0⟩] [(200, some 20), (100, some 10)]
        [witEntity 1 10 1, witEntity 2 11 5] [] [] 200 100 20 10 0 ⟨20, 11, 0⟩ 0
        (witEntity 1 10 1) (by decide) (by decide) (by decide) (by decide)
        (by decide)).2 1 (witEntity 2 11 5) (by decide)).1⟩

/-- C2: for every collision-start event whose first-matching struck entity
has the same physical handle as the bullet's shooter, the entity list is
returned unchanged (no health loss, no score gain), yet the bullet's index
is still queued for removal. -/
theorem c2_theorem (bullets : List Bullet) (colliders : List (ℕ × Option ℕ))
    (ents : List Entity) (idxs ids : List ℕ) (c1 c2 body1 body2 : ℕ)
    (i : ℕ) (bl : Bullet) (j : ℕ) (struck : Entity)
    (h1 : colliders.lookup c1 = some (some body1))
    (h2 : colliders.lookup c2 = some (some body2))
    (hb : findIdxAndElem? (fun b => b.handle == body1 || b.handle == body2) bullets
      = some (i, bl))
    (he : findIdxAndElem? (fun e => e.handle == body1 || e.handle == body2) ents
      = some (j, struck))
    (hself : bl.shooter = struck.handle) :
    processEvent bullets colliders (ents, idxs, ids) (.started c1 c2) =
      some (ents, idxs ++ [i], ids) := by
  rw [processEvent, h1, h2]
  simp [hb, he, hself]

/-- C2 witness: a bullet with shooter handle 10 strikes the entity with
handle 10 (a self-hit); the entity list is unchanged and index 0 is
queued. -/
theorem c2_witness :
    (([(200, some 20), (100, some 10)] : List (ℕ × Option ℕ)).lookup 200 =
      some (some 20)) ∧
    (([(200, some 20), (100, some 10)] : List (ℕ × Option ℕ)).lookup 100 =
      some (some 10)) ∧
    (findIdxAndElem? (fun b => b.handle == 20 || b.handle == 10)
      [(⟨20, 10, 0⟩ : Bullet)] = some (0, ⟨20, 10, 0⟩)) ∧
    (findIdxAndElem? (fun e => e.handle == 20 || e.handle == 10)
      [witEntity 1 10 5] = some (0, witEntity 1 10 5)) ∧
    ((⟨20, 10, 0⟩ : Bullet).shooter = (witEntity 1 10 5).handle) ∧
    processEvent [⟨20, 10, 0⟩] [(200, some 20), (100, some 10)]
        ([witEntity 1 10 5], [], []) (.started 200 100) =
      some ([witEntity 1 10 5], [] ++ [0], []) :=
  ⟨by decide, by decide, by decide, by decide, by decide,
    c2_theorem [⟨20, 10, 0⟩] [(200, some 20), (100, some 10)] [witEntity 1 10 5]
      [] [] 200 100 20 10 0 ⟨20, 10, 0⟩ 0 (witEntity 1 10 5) (by decide)
      (by decide) (by decide) (by decide) (by decide)⟩

/-- C3: the code evaluated at the failing input. In `glC3x` one bullet
takes part in two collision-start events of the same tick, so
`handle_collisions` queues index 0 twice; the descending-order removal
then calls `Vec::remove(0)` on an already emptied bullet list, which
panics (modelled as `none`). This violates the claim's "no duplicate
index / never indexes past the end" guarantee on a reachable input. -/
theorem c3_code_bug_eval :
    (glC3x.physicsEngine.collisionEvents.foldlM
        (processEvent glC3x.bullets glC3x.physicsEngine.colliders)
        (glC3x.entities, ([] : List ℕ), ([] : List ℕ))).map (fun acc => acc.2.1) =
      some [0, 0] ∧
    handleCollisions glC3x = none := by decide

/-- C4, counterexample to the claim as stated. In `sC4x` the client at
address "c" is bound to entity 1; during the tick entity 1 dies from a
collision and `remove_entity_by_id` removes it from the world, but the
socket-address→entity-id map — which `GameLogic` cannot even see — still
holds the binding ("c", 1) afterwards, an entry whose entity id is absent
from the world. -/
theorem c4_counterexample :
    sC4x.clientEntityMap.lookup "c" = some 1 ∧
    (deathStep sC4x).map
      (fun s2 => (s2.clientEntityMap, s2.gameLogic.entities.map Entity.id)) =
      some ([("c", 1)], [2]) := by decide

/-- C4 (amended): on the explicit-disconnect and inactivity-timeout paths
the socket-address→entity-id binding is removed in the same logical
operation as the bound entity's removal (afterwards the peer has no
binding); the death path (collision handling) removes only the entity and
leaves the binding in place until that client disconnects or times out. -/
theorem c4_amended_theorem (s : ServerState) (peer : String) (entityId : ℕ)
    (hm : s.clientEntityMap.lookup peer = some entityId) :
    (handleDisconnection peer s =
      { clientEntityMap := s.clientEntityMap.filter (fun kv => kv.1 != peer)
        gameLogic := s.gameLogic.removeEntityById entityId } ∧
     (handleDisconnection peer s).clientEntityMap.lookup peer = none) ∧
    (∀ previousTime currentTime : ℕ,
      CONNECTION_TIMEOUT_DELAY < currentTime - previousTime →
      checkTimeout peer previousTime currentTime s =
        (true,
          { clientEntityMap := s.clientEntityMap.filter (fun kv => kv.1 != peer)
            gameLogic := s.gameLogic.removeEntityById entityId })) := by
  refine ⟨⟨?_, ?_⟩, ?_⟩
  · rw [handleDisconnection, hm]
  · rw [handleDisconnection, hm]
    exact lookup_filter_ne_none peer s.clientEntityMap
  · intro previousTime currentTime ht
    rw [checkTimeout, if_pos ht, hm]

/-- C4 witness: the amended theorem applied to the concrete bound state
`sC5x` (client "c" bound to entity 1), with a timeout at 61 s of
inactivity. -/
theorem c4_amended_witness :
    sC5x.clientEntityMap.lookup "c" = some 1 ∧
    (handleDisconnection "c" sC5x =
      { clientEntityMap := sC5x.clientEntityMap.filter (fun kv => kv.1 != "c")
        gameLogic := sC5x.gameLogic.removeEntityById 1 }) ∧
    (handleDisconnection "c" sC5x).clientEntityMap.lookup "c" = none ∧
    CONNECTION_TIMEOUT_DELAY < 61 - 0 ∧
    checkTimeout "c" 0 61 sC5x =
      (true,
        { clientEntityMap := sC5x.clientEntityMap.filter (fun kv => kv.1 != "c")
          gameLogic := sC5x.gameLogic.removeEntityById 1 }) :=
  ⟨by decide,
    (c4_amended_theorem sC5x "c" 1 (by decide)).1.1,
    (c4_amended_theorem sC5x "c" 1 (by decide)).1.2,
    by decide,
    (c4_amended_theorem sC5x "c" 1 (by decide)).2 0 61 (by decide)⟩

/-- C5, counterexample to the claim as stated. In `sC5x` the bound client
sets `ACTUATOR_GUN_TRAVERSE=0.25`; the next actuation pass recomputes the
entity's `gun_orientation` as the raw copy 0.25 (`entity.gun_orientation =
entity.gun_traverse as f64`), not as `0.25 × 2π` radians — and
`0.25 ≠ 0.25 × 2π` since `π > 3`. -/
theorem c5_counterexample :
    ((processMessage "c" "ACTUATOR_GUN_TRAVERSE=0.25" sC5x).1.gameLogic.entities.map
        Entity.gunTraverse = [mkRat 1 4]) ∧
    ((applyActuators 0 (fun _ => (1, 0))
        (processMessage "c" "ACTUATOR_GUN_TRAVERSE=0.25" sC5x).1.gameLogic).entities.map
        Entity.gunOrientation = [mkRat 1 4]) ∧
    ((mkRat 1 4 : ℚ) : ℝ) ≠ ((mkRat 1 4 : ℚ) : ℝ) * (2 * Real.pi) := by
  refine ⟨by decide, by decide, ?_⟩
  have hq : (mkRat 1 4 : ℚ) = 1 / 4 := by
    rw [Rat.mkRat_eq_div]
    norm_num
  rw [hq]
  push_cast
  intro h
  nlinarith [Real.pi_gt_three]

/-- C5 (amended): the actuation phase recomputes `gun_orientation` every
tick as the raw `gun_traverse` value (a plain copy, no radian scaling —
the `[0,1] → [0,2π)` mapping happens at projectile spawn instead),
regardless of the firing state; and the `ACTUATOR_GUN_TRAVERSE=0.25`
command sets the bound entity's `gun_traverse` to 0.25, so the next tick's
`gun_orientation` is 0.25. -/
theorem c5_amended_theorem :
    (∀ (now : ℕ) (dir : ℚ × ℚ) (pe : PhysicsEngine) (bullets : List Bullet)
        (e : Entity) (rb : Body),
      pe.bodies.lookup e.handle = some rb →
      (actuateEntity now dir pe bullets e).2.2.gunOrientation = e.gunTraverse) ∧
    (∀ (s : ServerState) (peer : String) (entityId i : ℕ),
      s.clientEntityMap.lookup peer = some entityId →
      s.gameLogic.entities.findIdx? (fun e => e.id == entityId) = some i →
      (processMessage peer "ACTUATOR_GUN_TRAVERSE=0.25" s).1.gameLogic.entities =
        modifyAt s.gameLogic.entities i
          (fun e => { e with gunTraverse := mkRat 1 4 })) := by
  constructor
  · intro now dir pe bullets e rb hrb
    rw [actuateEntity, hrb]
  · intro s peer entityId i hm hfind

    have hsplit : splitChar '=' (trimAscii "ACTUATOR_GUN_TRAVERSE=0.25") =
        ["ACTUATOR_GUN_TRAVERSE", "0.25"] := by decide
    have hparse : parseF32Q (trimAscii "0.25") = some (mkRat 1 4) := by decide
    have hcode : trimAscii "ACTUATOR_GUN_TRAVERSE" = "ACTUATOR_GUN_TRAVERSE" := by decide
    have hA : ("ACTUATOR_GUN_TRAVERSE" = SET_NAME) = False := eq_false (by decide)
    have hB : ("ACTUATOR_GUN_TRAVERSE" = SET_COLOR) = False := eq_false (by decide)
    have hC1 : ("ACTUATOR_GUN_TRAVERSE" = ACTUATOR_MOTOR_LEFT) = False := eq_false (by decide)
    have hC2 : ("ACTUATOR_GUN_TRAVERSE" = ACTUATOR_MOTOR_RIGHT) = False := eq_false (by decide)
    have hC3 : ("ACTUATOR_GUN_TRAVERSE" = ACTUATOR_GUN_TRIGGER) = False := eq_false (by decide)
    have hC4 : ("ACTUATOR_GUN_TRAVERSE" = ACTUATOR_GUN_TRAVERSE) = True := eq_true rfl
    simp only [processMessage, hsplit, hm, List.headD, List.tail, hcode, hA, hB, hC1,
      hC2, hC3, hC4, if_false, if_true, or_false, false_or, or_true, true_or,
      List.head?_cons, hparse, Option.getD]
    simp only [GameLogic.updateEntityFirst, hfind]

/-- C5 witness: both parts of the amended theorem at the concrete bound
state `sC5x`. -/
theorem c5_amended_witness :
    (([(10, witBody (5, 5))] : List (ℕ × Body)).lookup 10 = some (witBody (5, 5))) ∧
    ((actuateEntity 0 (1, 0) ⟨[(10, witBody (5, 5))], [], []⟩ []
        (witEntity 1 10 1)).2.2.gunOrientation = (witEntity 1 10 1).gunTraverse) ∧
    (sC5x.clientEntityMap.lookup "c" = some 1) ∧
    (sC5x.gameLogic.entities.findIdx? (fun e => e.id == 1) = some 0) ∧
    ((processMessage "c" "ACTUATOR_GUN_TRAVERSE=0.25" sC5x).1.gameLogic.entities =
      modifyAt sC5x.gameLogic.entities 0
        (fun e => { e with gunTraverse := mkRat 1 4 })) :=
  ⟨by decide,
    c5_amended_theorem.1 0 (1, 0) ⟨[(10, witBody (5, 5))], [], []⟩ []
      (witEntity 1 10 1) (witBody (5, 5)) (by decide),
    by decide, by decide,
    c5_amended_theorem.2 sC5x "c" 1 0 (by decide) (by decide)⟩

/-- C6, counterexample to the claim as stated. The fresh bullet of `glC6x`
sits at (600, 1100): inside the square `[0,1200]²` that the code checks
(one `bounds = 1200.0` constant for both axes) but outside the arena
rectangle `[0, ARENA_WIDTH] × [0, ARENA_HEIGHT] = [0,1200] × [0,1000]`.
The tick's reaping passes leave it, and its body, in place. -/
theorem c6_counterexample :
    stepReap 0 glC6x = some glC6x ∧
    glC6x.physicsEngine.bodies.lookup 20 = some (witBody (600, 1100)) ∧
    glC6x.bullets = [⟨20, 99, 0⟩] ∧
    ARENA_HEIGHT < (1100 : ℚ) ∧
    bulletExpired 0 ⟨20, 99, 0⟩ = false := by decide

/-- C6 (amended): for every bullet whose body is still in the arena map,
if at the end of a tick the bullet is at least the 2-second TTL old, or
its position lies outside the square `[0,1200] × [0,1200]` (the code
compares both coordinates against the single bound 1200 = arena width,
not against the 1000-unit arena height), then the reaping passes of that
tick's `step` remove it from the bullet list and free its physical body. -/
theorem c6_amended_theorem (gl : GameLogic) (now : ℕ)
    (hall : ∀ b ∈ gl.bullets, (gl.physicsEngine.bodies.lookup b.handle).isSome = true) :
    ∃ gl' : GameLogic, stepReap now gl = some gl' ∧
      ∀ b ∈ gl.bullets,
        (bulletOutOfBounds gl.physicsEngine b = true ∨ bulletExpired now b = true) →
        b ∉ gl'.bullets ∧ gl'.physicsEngine.bodies.lookup b.handle = none := by
  obtain ⟨pe, ents, bs, obs⟩ := gl
  obtain ⟨pe2, hrun1, hfreed1, hmono1⟩ := removeOutOfBounds_run pe ents obs bs hall
  obtain ⟨pe3, hrun2, hfreed2, hmono2⟩ :=
    removeExpired_run now pe2 ents obs (bs.filter (fun b => !(bulletOutOfBounds pe b)))
  refine ⟨⟨pe3, ents,
    (bs.filter (fun b => !(bulletOutOfBounds pe b))).filter
      (fun b => !(bulletExpired now b)), obs⟩, ?_, ?_⟩
  · rw [stepReap, hrun1]
    show removeExpiredBullets now ⟨pe2, ents, _, obs⟩ = _
    exact hrun2
  · intro b hb hor
    constructor
    · intro hmem
      have h2 := List.mem_filter.mp hmem
      have h1 := List.mem_filter.mp h2.1
      rcases hor with hoob | hexp
      · rw [hoob] at h1
        simp at h1
      · rw [hexp] at h2
        simp at h2
    · by_cases hoob : bulletOutOfBounds pe b = true
      · exact hmono2 _ (hfreed1 _ ⟨b, hb, hoob, rfl⟩)
      · have hexp : bulletExpired now b = true := hor.resolve_left hoob
        have hmem1 : b ∈ bs.filter (fun b => !(bulletOutOfBounds pe b)) :=
          List.mem_filter.mpr ⟨hb, by simp [hoob]⟩
        exact hfreed2 _ ⟨b, hmem1, hexp, rfl⟩

/-- C6 witness: the amended theorem applied to `glC6w`, whose only bullet
is 2000 ms old at `now = 2000` and therefore expired. -/
theorem c6_amended_witness :
    (∀ b ∈ glC6w.bullets,
      (glC6w.physicsEngine.bodies.lookup b.handle).isSome = true) ∧
    (∃ gl' : GameLogic, stepReap 2000 glC6w = some gl' ∧
      ∀ b ∈ glC6w.bullets,
        (bulletOutOfBounds glC6w.physicsEngine b = true ∨
          bulletExpired 2000 b = true) →
        b ∉ gl'.bullets ∧ gl'.physicsEngine.bodies.lookup b.handle = none) :=
  ⟨by decide, c6_amended_theorem glC6w 2000 (by decide)⟩

/-- C7: on every actuation of an entity whose body is live, the body's
linear velocity is set to `forward` along the current heading (the unit
rotation vector) and its angular velocity to
`(rescale motor_right - rescale motor_left) / 40`, where `forward` is the
mean of the two rescaled motor values and `specMotorRescale` — written
from the spec's words — is the affine `[0,1] → [-100,100]` map sending
0.5 to 0; the final three conjuncts pin the affine map down at 0, 0.5
and 1. -/
theorem c7_theorem (now : ℕ) (dir : ℚ × ℚ) (pe : PhysicsEngine) (bullets : List Bullet)
    (e : Entity) (rb : Body) (hrb : pe.bodies.lookup e.handle = some rb) :
    (actuateEntity now dir pe bullets e).1.bodies.lookup e.handle =
      some { rb with
        linvel := ((specMotorRescale e.motorLeft + specMotorRescale e.motorRight) / 2 * rb.rot.1,
                   (specMotorRescale e.motorLeft + specMotorRescale e.motorRight) / 2 * rb.rot.2)
        angvel := (specMotorRescale e.motorRight - specMotorRescale e.motorLeft) / 40 } ∧
    specMotorRescale 0 = -100 ∧ specMotorRescale (mkRat 1 2) = 0 ∧
    specMotorRescale 1 = 100 := by
  have hmk : (mkRat 1 2 : ℚ) = 1 / 2 := by
    rw [Rat.mkRat_eq_div]
    norm_num
  have hL : ∀ x : ℚ, (x - mkRat 1 2) * 2 * 100 = specMotorRescale x := by
    intro x
    rw [hmk, specMotorRescale]
    ring
  refine ⟨?_, by rw [specMotorRescale]; ring, by rw [specMotorRescale, hmk]; ring,
    by rw [specMotorRescale]; ring⟩
  have hbody : ({ rb with
      linvel := (((e.motorLeft - mkRat 1 2) * 2 * 100 + (e.motorRight - mkRat 1 2) * 2 * 100) / 2 * rb.rot.1,
                 ((e.motorLeft - mkRat 1 2) * 2 * 100 + (e.motorRight - mkRat 1 2) * 2 * 100) / 2 * rb.rot.2)
      angvel := ((e.motorRight - mkRat 1 2) * 2 * 100 - (e.motorLeft - mkRat 1 2) * 2 * 100) / 40 } : Body) =
    { rb with
      linvel := ((specMotorRescale e.motorLeft + specMotorRescale e.motorRight) / 2 * rb.rot.1,
                 (specMotorRescale e.motorLeft + specMotorRescale e.motorRight) / 2 * rb.rot.2)
      angvel := (specMotorRescale e.motorRight - specMotorRescale e.motorLeft) / 40 } := by
    rw [hL, hL]
  rw [actuateEntity, hrb]
  simp only []
  by_cases htr : mkRat 1 2 < e.gunTrigger
  · simp only [if_pos htr]
    rw [← hbody]
    exact lookup_shootBall _ _ _ _ _ _ _ _
      (lookup_updateKey_self pe.bodies e.handle _ rb hrb)
  · simp only [if_neg htr]
    rw [← hbody]
    exact lookup_updateKey_self pe.bodies e.handle _ rb hrb

/-- C7 witness: the theorem applied to a concrete one-body engine and the
default-motor entity. -/
theorem c7_witness :
    (([(10, witBody (5, 5))] : List (ℕ × Body)).lookup
      (witEntity 1 10 1).handle = some (witBody (5, 5))) ∧
    ((actuateEntity 0 (1, 0) ⟨[(10, witBody (5, 5))], [], []⟩ []
        (witEntity 1 10 1)).1.bodies.lookup (witEntity 1 10 1).handle =
      some { witBody (5, 5) with
        linvel := ((specMotorRescale (witEntity 1 10 1).motorLeft +
              specMotorRescale (witEntity 1 10 1).motorRight) / 2 *
              (witBody (5, 5)).rot.1,
            (specMotorRescale (witEntity 1 10 1).motorLeft +
              specMotorRescale (witEntity 1 10 1).motorRight) / 2 *
              (witBody (5, 5)).rot.2)
        angvel := (specMotorRescale (witEntity 1 10 1).motorRight -
            specMotorRescale (witEntity 1 10 1).motorLeft) / 40 } ∧
      specMotorRescale 0 = -100 ∧ specMotorRescale (mkRat 1 2) = 0 ∧
      specMotorRescale 1 = 100) :=
  ⟨by decide,
    c7_theorem 0 (1, 0) ⟨[(10, witBody (5, 5))], [], []⟩ [] (witEntity 1 10 1)
      (witBody (5, 5)) (by decide)⟩

/-- C8: on every actuation of an entity whose body is live, a projectile
is spawned (appended to the bullet list, with the entity's handle as its
shooter and the current instant as its creation time, and `last_shot`
reset to now) exactly when `gun_trigger > 0.5` and the rate-of-fire
cooldown has elapsed since `last_shot`; in every other case the bullet
list and `last_shot` are unchanged by the actuation. -/
theorem c8_theorem (now : ℕ) (dir : ℚ × ℚ) (pe : PhysicsEngine) (bullets : List Bullet)
    (e : Entity) (rb : Body) (hrb : pe.bodies.lookup e.handle = some rb) :
    ((mkRat 1 2 < e.gunTrigger ∧ BOT_RATE_OF_FIRE ≤ now - e.lastShot) →
      (∃ b : Bullet, (actuateEntity now dir pe bullets e).2.1 = bullets ++ [b] ∧
        b.shooter = e.handle ∧ b.createdAt = now) ∧
      (actuateEntity now dir pe bullets e).2.2.lastShot = now) ∧
    (¬(mkRat 1 2 < e.gunTrigger ∧ BOT_RATE_OF_FIRE ≤ now - e.lastShot) →
      (actuateEntity now dir pe bullets e).2.1 = bullets ∧
      (actuateEntity now dir pe bullets e).2.2.lastShot = e.lastShot) := by
  rw [actuateEntity, hrb]
  constructor
  · rintro ⟨htr, hcool⟩
    have hncool : ¬(now - e.lastShot < BOT_RATE_OF_FIRE) := not_lt.mpr hcool
    simp only [if_pos htr, shootBall, if_neg hncool, bulletNew]
    refine ⟨⟨_, rfl, rfl, rfl⟩, ?_⟩
    simp
  · intro hno
    by_cases htr : mkRat 1 2 < e.gunTrigger
    · have hcool : now - e.lastShot < BOT_RATE_OF_FIRE := by
        by_contra hcc
        exact hno ⟨htr, not_lt.mp hcc⟩
      simp only [if_pos htr, shootBall, if_pos hcool]
      exact ⟨by simp, by simp⟩
    · simp only [if_neg htr]
      exact ⟨by simp, by simp⟩

/-- C8 witness: a pulled-trigger entity with an expired cooldown spawns a
bullet and has `last_shot` reset. -/
theorem c8_witness :
    (([(10, witBody (5, 5))] : List (ℕ × Body)).lookup
      ({ witEntity 1 10 1 with gunTrigger := 1 } : Entity).handle =
      some (witBody (5, 5))) ∧
    (mkRat 1 2 < ({ witEntity 1 10 1 with gunTrigger := 1 } : Entity).gunTrigger ∧
      BOT_RATE_OF_FIRE ≤ 1000 - ({ witEntity 1 10 1 with gunTrigger := 1 } : Entity).lastShot) ∧
    ((∃ b : Bullet,
        (actuateEntity 1000 (1, 0) ⟨[(10, witBody (5, 5))], [], []⟩ []
          { witEntity 1 10 1 with gunTrigger := 1 }).2.1 = [] ++ [b] ∧
        b.shooter = ({ witEntity 1 10 1 with gunTrigger := 1 } : Entity).handle ∧
        b.createdAt = 1000) ∧
      (actuateEntity 1000 (1, 0) ⟨[(10, witBody (5, 5))], [], []⟩ []
        { witEntity 1 10 1 with gunTrigger := 1 }).2.2.lastShot = 1000) :=
  ⟨by decide, ⟨by decide, by decide⟩,
    (c8_theorem 1000 (1, 0) ⟨[(10, witBody (5, 5))], [], []⟩ []
      { witEntity 1 10 1 with gunTrigger := 1 } (witBody (5, 5))
      (by decide)).1 ⟨by decide, by decide⟩⟩

/-- C9: for a connection bound to an existing entity, `SET_COLOR=FF00FF`
sets that entity's colour to RGB (255, 0, 255); `SET_COLOR=255=0=255`
sets the same RGB; and both the empty-argument form `SET_COLOR=` and the
missing-argument form `SET_COLOR` produce an error reply and leave the
whole server state unchanged. -/
theorem c9_theorem (s : ServerState) (peer : String) (entityId i : ℕ)
    (hm : s.clientEntityMap.lookup peer = some entityId)
    (hfind : s.gameLogic.entities.findIdx? (fun e => e.id == entityId) = some i) :
    ((processMessage peer "SET_COLOR=FF00FF" s).1.gameLogic.entities =
      modifyAt s.gameLogic.entities i (fun e => { e with color := (255, 0, 255) })) ∧
    ((processMessage peer "SET_COLOR=255=0=255" s).1.gameLogic.entities =
      modifyAt s.gameLogic.entities i (fun e => { e with color := (255, 0, 255) })) ∧
    (processMessage peer "SET_COLOR=" s = (s, some "Invalid color hex value")) ∧
    (processMessage peer "SET_COLOR" s = (s, some "Missing color value")) := by
  have hA : ("SET_COLOR" = SET_NAME) = False := eq_false (by decide)
  have hB : ("SET_COLOR" = SET_COLOR) = True := eq_true (by decide)
  have hcode : trimAscii "SET_COLOR" = "SET_COLOR" := by decide
  refine ⟨?_, ?_, ?_, ?_⟩
  · have hsplit : splitChar '=' (trimAscii "SET_COLOR=FF00FF") = ["SET_COLOR", "FF00FF"] := by
      decide
    have hhex : parseHexU32 "FF00FF" = some 16711935 := by decide
    have hr : (16711935 >>> 16) &&& 255 = 255 := by decide
    have hg : (16711935 >>> 8) &&& 255 = 0 := by decide
    have hb : 16711935 &&& 255 = 255 := by decide
    simp only [processMessage, hsplit, hm, List.headD, List.tail, hcode, hA, hB,
      if_false, if_true, List.isEmpty, List.length, List.head?_cons, Option.getD,
      hhex, hr, hg, hb]
    simp only [GameLogic.updateEntityFirst, hfind]
    simp
  · have hsplit : splitChar '=' (trimAscii "SET_COLOR=255=0=255") =
        ["SET_COLOR", "255", "0", "255"] := by decide
    have hp1 : parseU8 (trimAscii (["255", "0", "255"].getD 0 "")) = some 255 := by decide
    have hp2 : parseU8 (trimAscii (["255", "0", "255"].getD 1 "")) = some 0 := by decide
    have hp3 : parseU8 (trimAscii (["255", "0", "255"].getD 2 "")) = some 255 := by decide
    simp only [processMessage, hsplit, hm, List.headD, List.tail, hcode, hA, hB,
      if_false, if_true, List.isEmpty, List.length, Option.getD, hp1, hp2, hp3]
    simp only [GameLogic.updateEntityFirst, hfind]
    simp
  · have hsplit : splitChar '=' (trimAscii "SET_COLOR=") = ["SET_COLOR", ""] := by decide
    have hhex : parseHexU32 "" = none := by decide
    simp only [processMessage, hsplit, hm, List.headD, List.tail, hcode, hA, hB,
      if_false, if_true, List.isEmpty, List.length, List.head?_cons, Option.getD, hhex]
    simp
  · have hsplit : splitChar '=' "SET_COLOR" = ["SET_COLOR"] := by decide
    simp only [processMessage, hcode, hsplit, hm, List.headD, List.tail, hA, hB,
      if_false, if_true, List.isEmpty, Option.getD]

/-- C9 witness: the theorem applied to the bound state `sC5x`. -/
theorem c9_witness :
    (sC5x.clientEntityMap.lookup "c" = some 1) ∧
    (sC5x.gameLogic.entities.findIdx? (fun e => e.id == 1) = some 0) ∧
    (((processMessage "c" "SET_COLOR=FF00FF" sC5x).1.gameLogic.entities =
      modifyAt sC5x.gameLogic.entities 0
        (fun e => { e with color := (255, 0, 255) })) ∧
    ((processMessage "c" "SET_COLOR=255=0=255" sC5x).1.gameLogic.entities =
      modifyAt sC5x.gameLogic.entities 0
        (fun e => { e with color := (255, 0, 255) })) ∧
    (processMessage "c" "SET_COLOR=" sC5x = (sC5x, some "Invalid color hex value")) ∧
    (processMessage "c" "SET_COLOR" sC5x = (sC5x, some "Missing color value"))) :=
  ⟨by decide, by decide, c9_theorem sC5x "c" 1 0 (by decide) (by decide)⟩

/-- C10, counterexample to the claim as stated. With no binding for the
peer, the sub-command `SET_NAME` (a mutating code with its argument
missing) replies "Missing name", not "Entity not found" — the
argument validation runs before the entity lookup. The state is still
unchanged. -/
theorem c10_counterexample :
    processMessage "c" "SET_NAME" sC10x = (sC10x, some "Missing name") ∧
    ("Missing name" : String) ≠ "Entity not found" := by decide

/-- C10 (amended): for a peer with no map entry, every mutating
sub-command (SET_NAME, SET_COLOR, the four actuator codes) resolves to
the default entity id 0 and leaves the whole server state unchanged, and
replies "Entity not found" whenever its arguments pass the per-command
validation (otherwise the argument error is reported first, still without
any state change); ids are assigned as max-existing-id + 1, so
`next_entity_id` is at least 1 and both entity-creation paths preserve
"every id is at least 1", which is why the id-0 lookup can never find an
entity. -/
theorem c10_amended_theorem (s : ServerState) (peer received code : String) (args : List String)
    (hgc : code = trimAscii ((splitChar '=' (trimAscii received)).headD ""))
    (hga : args = (splitChar '=' (trimAscii received)).tail)
    (hm : s.clientEntityMap.lookup peer = none)
    (hid : ∀ e ∈ s.gameLogic.entities, 1 ≤ e.id)
    (hcode : code = SET_NAME ∨ code = SET_COLOR ∨ code = ACTUATOR_MOTOR_LEFT ∨
      code = ACTUATOR_MOTOR_RIGHT ∨ code = ACTUATOR_GUN_TRIGGER ∨
      code = ACTUATOR_GUN_TRAVERSE) :
    (processMessage peer received s).1 = s ∧
    (argsWellFormed code args = true →
      (processMessage peer received s).2 = some "Entity not found") ∧
    1 ≤ s.gameLogic.nextEntityId ∧
    (∀ (gl : GameLogic) (nm : String) (now2 : ℕ) (rx ry vx vy : ℚ),
      (∀ e ∈ gl.entities, 1 ≤ e.id) →
      ∀ e ∈ ((gl.addEntity nm now2 rx ry vx vy).1).entities, 1 ≤ e.id) ∧
    (∀ (gl : GameLogic) (nm : String) (now2 : ℕ) (rx ry vx vy : ℚ),
      (∀ e ∈ gl.entities, 1 ≤ e.id) →
      ∀ e ∈ ((gl.addAi nm now2 rx ry vx vy).1).entities, 1 ≤ e.id) := by
  have hupd : ∀ f : Entity → Entity, s.gameLogic.updateEntityFirst 0 f = none := by
    intro f
    rw [GameLogic.updateEntityFirst, findIdx?_id_zero_none _ hid]
  have dCN : ¬(SET_COLOR = SET_NAME) := by decide
  have eCC : SET_COLOR = SET_COLOR := rfl
  have dA1N : ¬(ACTUATOR_MOTOR_LEFT = SET_NAME) := by decide
  have dA1C : ¬(ACTUATOR_MOTOR_LEFT = SET_COLOR) := by decide
  have dA2N : ¬(ACTUATOR_MOTOR_RIGHT = SET_NAME) := by decide
  have dA2C : ¬(ACTUATOR_MOTOR_RIGHT = SET_COLOR) := by decide
  have dA3N : ¬(ACTUATOR_GUN_TRIGGER = SET_NAME) := by decide
  have dA3C : ¬(ACTUATOR_GUN_TRIGGER = SET_COLOR) := by decide
  have dA4N : ¬(ACTUATOR_GUN_TRAVERSE = SET_NAME) := by decide
  have dA4C : ¬(ACTUATOR_GUN_TRAVERSE = SET_COLOR) := by decide
  have hOr1 : ACTUATOR_MOTOR_LEFT = ACTUATOR_MOTOR_LEFT ∨
      ACTUATOR_MOTOR_LEFT = ACTUATOR_MOTOR_RIGHT ∨
      ACTUATOR_MOTOR_LEFT = ACTUATOR_GUN_TRIGGER ∨
      ACTUATOR_MOTOR_LEFT = ACTUATOR_GUN_TRAVERSE := Or.inl rfl
  have hOr2 : ACTUATOR_MOTOR_RIGHT = ACTUATOR_MOTOR_LEFT ∨
      ACTUATOR_MOTOR_RIGHT = ACTUATOR_MOTOR_RIGHT ∨
      ACTUATOR_MOTOR_RIGHT = ACTUATOR_GUN_TRIGGER ∨
      ACTUATOR_MOTOR_RIGHT = ACTUATOR_GUN_TRAVERSE := Or.inr (Or.inl rfl)
  have hOr3 : ACTUATOR_GUN_TRIGGER = ACTUATOR_MOTOR_LEFT ∨
      ACTUATOR_GUN_TRIGGER = ACTUATOR_MOTOR_RIGHT ∨
      ACTUATOR_GUN_TRIGGER = ACTUATOR_GUN_TRIGGER ∨
      ACTUATOR_GUN_TRIGGER = ACTUATOR_GUN_TRAVERSE := Or.inr (Or.inr (Or.inl rfl))
  have hOr4 : ACTUATOR_GUN_TRAVERSE = ACTUATOR_MOTOR_LEFT ∨
      ACTUATOR_GUN_TRAVERSE = ACTUATOR_MOTOR_RIGHT ∨
      ACTUATOR_GUN_TRAVERSE = ACTUATOR_GUN_TRIGGER ∨
      ACTUATOR_GUN_TRAVERSE = ACTUATOR_GUN_TRAVERSE := Or.inr (Or.inr (Or.inr rfl))
  have haddE : ∀ (gl : GameLogic) (nm : String) (now2 : ℕ) (rx ry vx vy : ℚ),
      (∀ e ∈ gl.entities, 1 ≤ e.id) →
      ∀ e ∈ ((gl.addEntity nm now2 rx ry vx vy).1).entities, 1 ≤ e.id := by
    intro gl nm now2 rx ry vx vy hgl e he
    rw [GameLogic.addEntity] at he
    simp only [entityNew, List.mem_append, List.mem_singleton] at he
    rcases he with he | rfl
    · exact hgl e he
    · exact Nat.le_add_left 1 _
  have haddA : ∀ (gl : GameLogic) (nm : String) (now2 : ℕ) (rx ry vx vy : ℚ),
      (∀ e ∈ gl.entities, 1 ≤ e.id) →
      ∀ e ∈ ((gl.addAi nm now2 rx ry vx vy).1).entities, 1 ≤ e.id := by
    intro gl nm now2 rx ry vx vy hgl e he
    rw [GameLogic.addAi] at he
    simp only [entityNew, List.mem_append, List.mem_singleton] at he
    rcases he with he | rfl
    · exact hgl e he
    · exact Nat.le_add_left 1 _
  refine ?_ -- main split below
  have hmain : (processMessage peer received s).1 = s ∧
      (argsWellFormed code args = true →
        (processMessage peer received s).2 = some "Entity not found") := by
    simp only [processMessage, hm, Option.getD_none]
    rw [← hgc, ← hga]
    rcases hcode with rfl | rfl | rfl | rfl | rfl | rfl
    · -- SET_NAME
      rw [if_pos (rfl : SET_NAME = SET_NAME)]
      cases hh : args.head? with
      | none =>
        refine ⟨by simp, ?_⟩
        intro hwf
        rw [argsWellFormed, if_pos (rfl : SET_NAME = SET_NAME), hh] at hwf
        simp at hwf
      | some nm =>
        simp only [hupd]
        exact ⟨by simp, fun _ => by simp⟩
    · -- SET_COLOR
      rw [if_neg dCN, if_pos eCC]
      by_cases hemp : args.isEmpty
      · obtain rfl : args = [] := List.isEmpty_iff.mp hemp
        rw [if_pos (show ([] : List String).isEmpty = true from rfl)]
        refine ⟨by simp, ?_⟩
        intro hwf
        rw [argsWellFormed, if_neg dCN, if_pos eCC] at hwf
        simp at hwf
      · rw [if_neg (by simpa using hemp)]
        by_cases hlen1 : args.length = 1
        · rw [if_pos hlen1]
          cases hhx : parseHexU32 (args.headD "") with
          | some hex =>
            simp only [hhx, hupd]
            exact ⟨by simp, fun _ => by simp⟩
          | none =>
            simp only [hhx]
            refine ⟨by simp, ?_⟩
            intro hwf
            rw [argsWellFormed, if_neg dCN, if_pos eCC] at hwf
            have h3 : (args.length == 3) = false := by
              simp [hlen1]
            rw [hhx, h3, hlen1] at hwf
            simp at hwf
        · rw [if_neg hlen1]
          by_cases hlen3 : args.length = 3
          · rw [if_pos hlen3]
            cases hp0 : parseU8 (trimAscii (args.getD 0 "")) with
            | some r =>
              cases hp1 : parseU8 (trimAscii (args.getD 1 "")) with
              | some g =>
                cases hp2 : parseU8 (trimAscii (args.getD 2 "")) with
                | some b =>
                  simp only [hp0, hp1, hp2, hupd]
                  exact ⟨by simp, fun _ => by simp⟩
                | none =>
                  simp only [hp0, hp1, hp2]
                  refine ⟨by simp, ?_⟩
                  intro hwf
                  rw [argsWellFormed, if_neg dCN, if_pos eCC] at hwf
                  have h1 : (args.length == 1) = false := by simp [hlen1]
                  rw [hp0, hp1, hp2, h1] at hwf
                  simp at hwf
              | none =>
                simp only [hp0, hp1]
                refine ⟨by simp, ?_⟩
                intro hwf
                rw [argsWellFormed, if_neg dCN, if_pos eCC] at hwf
                have h1 : (args.length == 1) = false := by simp [hlen1]
                rw [hp0, hp1, h1] at hwf
                simp at hwf
            | none =>
              simp only [hp0]
              refine ⟨by simp, ?_⟩
              intro hwf
              rw [argsWellFormed, if_neg dCN, if_pos eCC] at hwf
              have h1 : (args.length == 1) = false := by simp [hlen1]
              rw [hp0, h1] at hwf
              simp at hwf
          · rw [if_neg hlen3]
            refine ⟨by simp, ?_⟩
            intro hwf
            rw [argsWellFormed, if_neg dCN, if_pos eCC] at hwf
            have h1 : (args.length == 1) = false := by simp [hlen1]
            have h3 : (args.length == 3) = false := by simp [hlen3]
            rw [h1, h3] at hwf
            simp at hwf
    · -- ACTUATOR_MOTOR_LEFT
      rw [if_neg dA1N, if_neg dA1C, if_pos hOr1]
      cases hh : args.head? with
      | none =>
        refine ⟨by simp, ?_⟩
        intro hwf
        rw [argsWellFormed, if_neg dA1N, if_neg dA1C, hh] at hwf
        simp at hwf
      | some v =>
        cases hpv : parseF32Q (trimAscii v) with
        | some val =>
          simp only [hpv, hupd]
          exact ⟨by simp, fun _ => by simp⟩
        | none =>
          simp only [hpv]
          refine ⟨by simp, ?_⟩
          intro hwf
          rw [argsWellFormed, if_neg dA1N, if_neg dA1C] at hwf
          simp only [hh, hpv] at hwf
          simp at hwf
    · -- ACTUATOR_MOTOR_RIGHT
      rw [if_neg dA2N, if_neg dA2C, if_pos hOr2]
      cases hh : args.head? with
      | none =>
        refine ⟨by simp, ?_⟩
        intro hwf
        rw [argsWellFormed, if_neg dA2N, if_neg dA2C, hh] at hwf
        simp at hwf
      | some v =>
        cases hpv : parseF32Q (trimAscii v) with
        | some val =>
          simp only [hpv, hupd]
          exact ⟨by simp, fun _ => by simp⟩
        | none =>
          simp only [hpv]
          refine ⟨by simp, ?_⟩
          intro hwf
          rw [argsWellFormed, if_neg dA2N, if_neg dA2C] at hwf
          simp only [hh, hpv] at hwf
          simp at hwf
    · -- ACTUATOR_GUN_TRIGGER
      rw [if_neg dA3N, if_neg dA3C, if_pos hOr3]
      cases hh : args.head? with
      | none =>
        refine ⟨by simp, ?_⟩
        intro hwf
        rw [argsWellFormed, if_neg dA3N, if_neg dA3C, hh] at hwf
        simp at hwf
      | some v =>
        cases hpv : parseF32Q (trimAscii v) with
        | some val =>
          simp only [hpv, hupd]
          exact ⟨by simp, fun _ => by simp⟩
        | none =>
          simp only [hpv]
          refine ⟨by simp, ?_⟩
          intro hwf
          rw [argsWellFormed, if_neg dA3N, if_neg dA3C] at hwf
          simp only [hh, hpv] at hwf
          simp at hwf
    · -- ACTUATOR_GUN_TRAVERSE
      rw [if_neg dA4N, if_neg dA4C, if_pos hOr4]
      cases hh : args.head? with
      | none =>
        refine ⟨by simp, ?_⟩
        intro hwf
        rw [argsWellFormed, if_neg dA4N, if_neg dA4C, hh] at hwf
        simp at hwf
      | some v =>
        cases hpv : parseF32Q (trimAscii v) with
        | some val =>
          simp only [hpv, hupd]
          exact ⟨by simp, fun _ => by simp⟩
        | none =>
          simp only [hpv]
          refine ⟨by simp, ?_⟩
          intro hwf
          rw [argsWellFormed, if_neg dA4N, if_neg dA4C] at hwf
          simp only [hh, hpv] at hwf
          simp at hwf
  exact ⟨hmain.1, hmain.2, Nat.le_add_left 1 _, haddE, haddA⟩

/-- C10 witness: the amended theorem applied to the unbound state `sC10x`
and the well-formed sub-command `SET_NAME=bob`. -/
theorem c10_amended_witness :
    (SET_NAME = trimAscii ((splitChar '=' (trimAscii "SET_NAME=bob")).headD "")) ∧
    ((["bob"] : List String) = (splitChar '=' (trimAscii "SET_NAME=bob")).tail) ∧
    (sC10x.clientEntityMap.lookup "c" = none) ∧
    (∀ e ∈ sC10x.gameLogic.entities, 1 ≤ e.id) ∧
    (argsWellFormed SET_NAME ["bob"] = true) ∧
    ((processMessage "c" "SET_NAME=bob" sC10x).1 = sC10x) ∧
    ((processMessage "c" "SET_NAME=bob" sC10x).2 = some "Entity not found") :=
  ⟨by decide, by decide, by decide, by decide, by decide,
    (c10_amended_theorem sC10x "c" "SET_NAME=bob" SET_NAME ["bob"] (by decide)
      (by decide) (by decide) (by decide) (Or.inl rfl)).1,
    (c10_amended_theorem sC10x "c" "SET_NAME=bob" SET_NAME ["bob"] (by decide)
      (by decide) (by decide) (by decide) (Or.inl rfl)).2.1 (by decide)⟩

end Starnet
